import Mathlib

/-!
Verification of the PyDeployer stage-runner scripts.

The repository holds two near-duplicate Python scripts:

 * `src/pydeployer.py`  — the git-based variant (stages clone, build, test,
   deploy, rollback; `runCmd` helper; `load_config` that is non-fatal on a
   missing `pipeline.yml`; `clean_old_logs` keeping the 10 newest log files);
 * `src/PyDeployer.py`  — the docker-based variant (stages build, test;
   `load_config` that exits 1 on a missing `pipeline.yml`; no log cleanup).

Both are modelled below as pure functions from an environment (an oracle for
the outcomes of external processes, the filesystem, and the parsed YAML
configuration) to a result together with a trace of observable events
(console prints, log records, spawned commands, deleted log files).
Python's `sys.exit(1)` is modelled by the result `Res.exited 1`; an uncaught
`KeyError`/`TypeError` from direct dict indexing is `Res.keyError`.
-/

namespace PyDeployer

/-- Python `str.strip()`: drop whitespace from both ends.  (Implemented over
`String.data` because the core `String.trim` is defined by well-founded
recursion and does not reduce in the kernel.) -/
def pyStrip (s : String) : String :=
  ⟨((s.data.dropWhile Char.isWhitespace).reverse.dropWhile Char.isWhitespace).reverse⟩

/-- Helper for `pySplit`: scan the character list, accumulating the current
word (in reverse) in `acc`. -/
def splitWSAux : List Char → List Char → List String
  | [], acc => if acc.isEmpty then [] else [String.mk acc.reverse]
  | c :: rest, acc =>
    if c.isWhitespace then
      if acc.isEmpty then splitWSAux rest []
      else String.mk acc.reverse :: splitWSAux rest []
    else splitWSAux rest (c :: acc)

/-- Python `str.split()` with no argument: split on runs of whitespace and
drop empty pieces. -/
def pySplit (s : String) : List String := splitWSAux s.data []

/-- Python `" ".join(cmd)`. -/
def joinSpace : List String → String
  | [] => ""
  | [s] => s
  | s :: rest => s ++ " " ++ joinSpace rest

/-- Outcome of spawning one external process: its exit code and the captured
output streams.  The environment's `exec` oracle produces one of these for
every command; spawning itself is assumed to succeed. -/
structure CmdResult where
  exitCode : Nat
  stdout : String
  stderr : String
deriving DecidableEq, Repr

/-- Console colors used by the `info`/`success`/`warn`/`error` print helpers
(cyan, green, yellow, red respectively). -/
inductive Color where
  | cyan
  | green
  | yellow
  | red
deriving DecidableEq, Repr

/-- One observable effect of a run: a colored console print, a log record at
some level, a spawned external command, or a deleted log file. -/
inductive Event where
  | printed (c : Color) (msg : String)
  | logInfo (msg : String)
  | logWarning (msg : String)
  | logError (msg : String)
  | ranCmd (argv : List String) (cwd : Option String)
  | deletedLog (name : String)
deriving DecidableEq, Repr

/-- True exactly on `Event.deletedLog` events. -/
def Event.isDeletedLog : Event → Bool
  | .deletedLog _ => true
  | _ => false

/-- True exactly on `Event.ranCmd` events. -/
def Event.isRanCmd : Event → Bool
  | .ranCmd _ _ => true
  | _ => false

/-- Control-flow outcome of a piece of the script: normal value, process
termination via `sys.exit`, or an uncaught lookup error (Python `KeyError`,
or `TypeError` from indexing a non-dict) propagating out. -/
inductive Res (α : Type) where
  | ok (a : α)
  | exited (code : Nat)
  | keyError (key : String)
deriving DecidableEq, Repr

/-- Forget the value of a result, keeping only the control-flow outcome. -/
def resUnit {α : Type} : Res α → Res Unit
  | .ok _ => .ok ()
  | .exited n => .exited n
  | .keyError k => .keyError k

/-- A parsed YAML document: a string scalar or a mapping.  (The claims only
exercise string scalars and nested mappings; a YAML `null` document is
represented at the uses as `Option Yaml` with `none`.) -/
inductive Yaml where
  | str (s : String)
  | map (entries : List (String × Yaml))
deriving Repr

/-- Association-list lookup for `Yaml.map` entries. -/
def lookupEntries : List (String × Yaml) → String → Option Yaml
  | [], _ => none
  | (k, v) :: rest, key => if k = key then some v else lookupEntries rest key

/-- Python `dict.get(key)`: `some` value when present, `none` when absent.
Calling `.get` on a string scalar would raise `AttributeError` in Python;
the model returns `none`, which the theorems only rely on where the two
agree (see the side conditions on the claim theorems). -/
def Yaml.get? : Yaml → String → Option Yaml
  | Yaml.str _, _ => none
  | Yaml.map es, key => lookupEntries es key

/-- Python `dict.get(key, default)`. -/
def Yaml.getD (y : Yaml) (k : String) (d : Yaml) : Yaml :=
  (y.get? k).getD d

/-- Python truthiness of a YAML value: empty strings and empty mappings are
falsy. -/
def Yaml.isTruthy : Yaml → Bool
  | Yaml.str s => !s.data.isEmpty
  | Yaml.map es => !es.isEmpty

/-- Python truthiness of an optional YAML value (`None` is falsy). -/
def optTruthy : Option Yaml → Bool
  | none => false
  | some y => y.isTruthy

/-- Render a YAML value where the script interpolates it into a string.  The
scripts only ever do this with string scalars; the placeholder for mappings
stands in for Python's dict repr and no theorem depends on it. -/
def pyStr : Yaml → String
  | Yaml.str s => s
  | Yaml.map _ => "dict"

/-- Render an optional YAML value (Python prints `None` for a missing one). -/
def optStr : Option Yaml → String
  | none => "None"
  | some y => pyStr y

/-- Value of an optional YAML entry used as a string, with a default for an
absent entry (Python `d.get(k, default)` where the caller then uses the
result as a string).  A present mapping value would make Python raise
`TypeError` downstream; the model substitutes the default there, and the
theorems that quantify over configurations exclude that case via
`isStrOrAbsent`. -/
def getStrD (o : Option Yaml) (d : String) : String :=
  match o with
  | some (Yaml.str s) => s
  | some (Yaml.map _) => d
  | none => d

/-- String-valued-or-absent test for an optional YAML value.  Where a config
key is used as a string (path component, command, branch name), a present
mapping value would make Python raise `TypeError`; the claim theorems that
touch such keys carry this as a side condition so the model and Python
agree on the quantified configurations. -/
def isStrOrAbsent : Option Yaml → Bool
  | none => true
  | some (Yaml.str _) => true
  | some (Yaml.map _) => false

/-- Python `config["key"]` (direct indexing): the value when present, an
uncaught lookup error when absent or when the subject is not a mapping. -/
def pyIndex (y : Yaml) (k : String) : Res Yaml :=
  match y.get? k with
  | some v => Res.ok v
  | none => Res.keyError k

/-- Iterated direct indexing `config[k1][k2]…`, propagating the first
uncaught lookup error. -/
def pyIndexChain : Yaml → List String → Res Yaml
  | y, [] => Res.ok y
  | y, k :: ks =>
    match pyIndex y k with
    | Res.ok v => pyIndexChain v ks
    | Res.exited n => Res.exited n
    | Res.keyError kk => Res.keyError kk

/-- One file in the `logs/` directory: its name and modification time. -/
structure LogFile where
  name : String
  mtime : Nat
deriving DecidableEq, Repr

/-- The glob pattern `pydeployer_*.log` used by `clean_old_logs`. -/
def matchesLogName (s : String) : Bool :=
  "pydeployer_".data.isPrefixOf s.data && ".log".data.isSuffixOf s.data

/-- Sort key for `clean_old_logs`: modification time, newest first
(`sorted(..., key=mtime, reverse=True)`). -/
def mtGe (a b : LogFile) : Prop := b.mtime ≤ a.mtime

instance : DecidableRel mtGe := fun a b => Nat.decLe b.mtime a.mtime

instance : IsTotal LogFile mtGe := ⟨fun a b => Nat.le_total b.mtime a.mtime⟩

instance : IsTrans LogFile mtGe := ⟨fun _ _ _ hab hbc => Nat.le_trans hbc hab⟩

end PyDeployer

namespace PyDeployer.Git

/-- Environment of one run of the git-based variant `src/pydeployer.py`:
the external-process oracle, whether `pipeline.yml` exists and its parsed
content (`none` models a YAML `null` document), an existence oracle for
directories under the base directory, the current state of `logs/`, and the
timestamp string used in the build commit message. -/
structure Env where
  exec : List String → Option String → CmdResult
  pipelineExists : Bool
  pipelineRaw : Option Yaml
  dirExists : String → Bool
  logDir : List LogFile
  now : String

/-- Python `yaml.safe_load(f) or {}`: a falsy document becomes the empty
mapping. -/
def yamlOr : Option Yaml → Yaml
  | none => Yaml.map []
  | some y => if y.isTruthy then y else Yaml.map []

/-- Model of `runCmd(cmd, cwd)` from `src/pydeployer.py`: spawn the
command; on exit 0 log the (non-empty) stripped stdout and stderr and
return the stripped stdout; on non-zero exit log the raw captured stderr,
print a red failure message, and `sys.exit(1)`. -/
def runCmd (env : Env) (cmd : List String) (cwd : Option String) :
    Res String × List Event :=
  let r := env.exec cmd cwd
  if r.exitCode = 0 then
    (Res.ok (pyStrip r.stdout),
     Event.ranCmd cmd cwd ::
       ((if r.stdout = "" then [] else [Event.logInfo (pyStrip r.stdout)]) ++
        (if r.stderr = "" then [] else [Event.logWarning (pyStrip r.stderr)])))
  else
    (Res.exited 1,
     [Event.ranCmd cmd cwd,
      Event.logError r.stderr,
      Event.printed Color.red ("❌ Command failed: " ++ joinSpace cmd)])

/-- Model of `load_config()` from `src/pydeployer.py`: a missing
`pipeline.yml` yields a warning and the empty mapping; otherwise the parsed
document with a falsy document coerced to the empty mapping. -/
def load_config (env : Env) : Yaml × List Event :=
  if env.pipelineExists then (yamlOr env.pipelineRaw, [])
  else (Yaml.map [],
    [Event.printed Color.yellow "⚠️ pipeline.yml not found, continuing with defaults."])

/-- Model of `clean_old_logs()`: sort the files matching `pydeployer_*.log`
by modification time, newest first (Python's `sorted` is stable, modelled by
the stable `List.insertionSort`), and unlink every file beyond the 10th,
logging each deletion.  Returns the resulting directory contents and the
events. -/
def clean_old_logs (dir : List LogFile) : List LogFile × List Event :=
  let logs := (dir.filter (fun f => matchesLogName f.name)).insertionSort mtGe
  let old := logs.drop 10
  (dir.filter (fun f => old.all (fun g => g.name != f.name)),
   old.flatMap (fun f =>
     [Event.deletedLog f.name,
      Event.logInfo ("🗑️ Deleted old log: " ++ f.name)]))

/-- Model of `clone_repo(config)`: fatal (exit 1) when `repo.url` is falsy;
otherwise `git pull` inside the target directory when it exists, else
`git clone` into it. -/
def clone_repo (config : Yaml) (env : Env) : Res Unit × List Event :=
  let e0 := [Event.printed Color.cyan "=== Starting CLONE stage ==="]
  let repoUrl := (config.getD "repo" (Yaml.map [])).get? "url"
  let targetDir := getStrD ((config.getD "repo" (Yaml.map [])).get? "target") "target_repo"
  if optTruthy repoUrl = false then
    (Res.exited 1, e0 ++
      [Event.printed Color.red
        "❌ No repository URL specified in pipeline.yml under \x27repo.url\x27"])
  else if env.dirExists targetDir then
    let e1 := e0 ++ [Event.printed Color.cyan
      ("📦 Repository already exists at " ++ targetDir ++ ". Pulling latest changes...")]
    match runCmd env ["git", "pull"] (some targetDir) with
    | (Res.ok _, ec) =>
        (Res.ok (), e1 ++ ec ++
          [Event.printed Color.green "✅ Repository ready.",
           Event.logInfo ("Clone stage finished successfully for " ++ optStr repoUrl)])
    | (r, ec) => (resUnit r, e1 ++ ec)
  else
    let e1 := e0 ++ [Event.printed Color.cyan
      ("📥 Cloning repository from " ++ optStr repoUrl ++ " into " ++ targetDir ++ "...")]
    match runCmd env ["git", "clone", optStr repoUrl, targetDir] none with
    | (Res.ok _, ec) =>
        (Res.ok (), e1 ++ ec ++
          [Event.printed Color.green "✅ Repository ready.",
           Event.logInfo ("Clone stage finished successfully for " ++ optStr repoUrl)])
    | (r, ec) => (resUnit r, e1 ++ ec)

/-- Model of `build(config)` from the git-based variant: fatal (exit 1) when
the target directory is missing; otherwise `git add .` then `git commit`. -/
def build (config : Yaml) (env : Env) : Res Unit × List Event :=
  let e0 := [Event.printed Color.cyan "=== Starting BUILD stage ==="]
  let repoDir := getStrD ((config.getD "repo" (Yaml.map [])).get? "target") "target_repo"
  if env.dirExists repoDir = false then
    (Res.exited 1, e0 ++
      [Event.printed Color.red "❌ Repository not cloned yet. Run \x27clone\x27 first."])
  else
    match runCmd env ["git", "add", "."] (some repoDir) with
    | (Res.ok _, e1) =>
      match runCmd env ["git", "commit", "-m", "Build commit at " ++ env.now]
          (some repoDir) with
      | (Res.ok _, e2) =>
          (Res.ok (), e0 ++ e1 ++ e2 ++
            [Event.printed Color.green "✅ Build (commit) completed successfully.",
             Event.logInfo "Build stage finished successfully."])
      | (r, e2) => (resUnit r, e0 ++ e1 ++ e2)
    | (r, e1) => (resUnit r, e0 ++ e1)

/-- Model of `test(config)` from the git-based variant: run the configured
test command (default `pytest -v`) inside the target directory.  The
`except Exception` in the source does not catch `SystemExit`, so the exit
raised inside `runCmd` propagates unchanged. -/
def test (config : Yaml) (env : Env) : Res Unit × List Event :=
  let e0 := [Event.printed Color.cyan "=== Starting TEST stage ==="]
  let repoDir := getStrD ((config.getD "repo" (Yaml.map [])).get? "target") "target_repo"
  let testCommand := getStrD ((config.getD "test" (Yaml.map [])).get? "command") "pytest -v"
  let e1 := e0 ++ [Event.printed Color.cyan ("🧪 Running tests using: " ++ testCommand)]
  match runCmd env (pySplit testCommand) (some repoDir) with
  | (Res.ok _, ec) =>
      (Res.ok (), e1 ++ ec ++ [Event.printed Color.green "✅ All tests passed."])
  | (r, ec) => (resUnit r, e1 ++ ec)

/-- Model of `deploy(config)`: rebase-pull then push the configured branch
(default `main`) in the target directory. -/
def deploy (config : Yaml) (env : Env) : Res Unit × List Event :=
  let e0 := [Event.printed Color.cyan "=== Starting DEPLOY stage ==="]
  let repoDir := getStrD ((config.getD "repo" (Yaml.map [])).get? "target") "target_repo"
  let branch := getStrD ((config.getD "deploy" (Yaml.map [])).get? "branch") "main"
  match runCmd env ["git", "pull", "origin", branch, "--rebase"] (some repoDir) with
  | (Res.ok _, e1) =>
    match runCmd env ["git", "push", "origin", branch] (some repoDir) with
    | (Res.ok _, e2) =>
        (Res.ok (), e0 ++ e1 ++ e2 ++
          [Event.printed Color.green ("✅ Code deployed to branch \x27" ++ branch ++ "\x27."),
           Event.logInfo "Deploy stage finished successfully."])
    | (r, e2) => (resUnit r, e0 ++ e1 ++ e2)
  | (r, e1) => (resUnit r, e0 ++ e1)

/-- Model of `rollback(config)`: revert `HEAD` then push `main` in the
target directory.  As in `test`, the `except Exception` does not catch the
`SystemExit` raised inside `runCmd`. -/
def rollback (config : Yaml) (env : Env) : Res Unit × List Event :=
  let e0 := [Event.printed Color.yellow "=== Starting ROLLBACK stage ==="]
  let repoDir := getStrD ((config.getD "repo" (Yaml.map [])).get? "target") "target_repo"
  match runCmd env ["git", "revert", "--no-edit", "HEAD"] (some repoDir) with
  | (Res.ok _, e1) =>
    match runCmd env ["git", "push", "origin", "main"] (some repoDir) with
    | (Res.ok _, e2) =>
        (Res.ok (), e0 ++ e1 ++ e2 ++
          [Event.printed Color.green "✅ Rollback completed and pushed.",
           Event.logInfo "Rollback stage finished successfully."])
    | (r, e2) => (resUnit r, e0 ++ e1 ++ e2)
  | (r, e1) => (resUnit r, e0 ++ e1)

/-- Well-formedness side condition on a configuration: the keys the git
variant interpolates into paths and commands (`repo.url`, `repo.target`,
`test.command`, `deploy.branch`) are each absent or string-valued.  On
configurations violating this, Python raises `TypeError` where the total
model substitutes a default, so theorems quantifying over configurations
carry this condition. -/
def wfConfig (config : Yaml) : Bool :=
  isStrOrAbsent ((config.getD "repo" (Yaml.map [])).get? "url") &&
  isStrOrAbsent ((config.getD "repo" (Yaml.map [])).get? "target") &&
  isStrOrAbsent ((config.getD "test" (Yaml.map [])).get? "command") &&
  isStrOrAbsent ((config.getD "deploy" (Yaml.map [])).get? "branch")

/-- Model of `run_stage(stage_name)` from `src/pydeployer.py`: load the
configuration, prune old logs, then dispatch on the stage name, warning on
an unknown name. -/
def run_stage (stage : String) (env : Env) : Res Unit × List Event :=
  let lc := load_config env
  let pre := lc.2 ++ (clean_old_logs env.logDir).2
  if stage = "clone" then
    let s := clone_repo lc.1 env
    (s.1, pre ++ s.2)
  else if stage = "build" then
    let s := build lc.1 env
    (s.1, pre ++ s.2)
  else if stage = "test" then
    let s := test lc.1 env
    (s.1, pre ++ s.2)
  else if stage = "deploy" then
    let s := deploy lc.1 env
    (s.1, pre ++ s.2)
  else if stage = "rollback" then
    let s := rollback lc.1 env
    (s.1, pre ++ s.2)
  else
    (Res.ok (), pre ++
      [Event.printed Color.yellow ("⚠️ Stage \x27" ++ stage ++ "\x27 not implemented yet.")])

end PyDeployer.Git

namespace PyDeployer.Docker

/-- Environment of one run of the docker-based variant `src/PyDeployer.py`:
the external-process oracle, whether `pipeline.yml` exists, and its parsed
content. -/
structure Env where
  exec : List String → Option String → CmdResult
  pipelineExists : Bool
  pipeline : Yaml

/-- Model of `load_config()` from `src/PyDeployer.py`: a missing
`pipeline.yml` prints an error and exits 1; otherwise the parsed document is
returned (no `or {}` coercion in this variant). -/
def load_config (env : Env) : Res Yaml × List Event :=
  if env.pipelineExists then (Res.ok env.pipeline, [])
  else (Res.exited 1, [Event.printed Color.red "❌ pipeline.yml not found!"])

/-- Model of `build(config)` from the docker-based variant: read
`stages.build.image_name` and `stages.build.tag` by direct indexing (an
uncaught lookup error propagates), then `docker build`; output streams are
not captured, and a failure logs the fixed message `Build failed`. -/
def build (config : Yaml) (env : Env) : Res Unit × List Event :=
  let e0 := [Event.printed Color.cyan "=== Starting BUILD stage ==="]
  match pyIndexChain config ["stages", "build", "image_name"] with
  | Res.exited n => (Res.exited n, e0)
  | Res.keyError k => (Res.keyError k, e0)
  | Res.ok image =>
    match pyIndexChain config ["stages", "build", "tag"] with
    | Res.exited n => (Res.exited n, e0)
    | Res.keyError k => (Res.keyError k, e0)
    | Res.ok tag =>
      let cmd := ["docker", "build", "-t", pyStr image ++ ":" ++ pyStr tag, "."]
      let r := env.exec cmd none
      if r.exitCode = 0 then
        (Res.ok (), e0 ++
          [Event.ranCmd cmd none,
           Event.printed Color.green ("✅ Build successful: " ++ pyStr image ++ ":" ++ pyStr tag),
           Event.logInfo ("Build successful: " ++ pyStr image ++ ":" ++ pyStr tag)])
      else
        (Res.exited 1, e0 ++
          [Event.ranCmd cmd none,
           Event.printed Color.red "❌ Build failed!",
           Event.logError "Build failed"])

/-- Model of `test(config)` from the docker-based variant: read
`stages.test.command` by direct indexing, then run it inside a fixed
container; output streams are not captured, and a failure logs the fixed
message `Tests failed.`. -/
def test (config : Yaml) (env : Env) : Res Unit × List Event :=
  let e0 := [Event.printed Color.cyan "=== Starting TEST stage ==="]
  match pyIndexChain config ["stages", "test", "command"] with
  | Res.exited n => (Res.exited n, e0)
  | Res.keyError k => (Res.keyError k, e0)
  | Res.ok tc =>
    let e1 := e0 ++ [Event.logInfo ("Running tests with: " ++ pyStr tc)]
    let cmd := ["docker", "run", "--rm", "pydeployer:latest", "bash", "-c", pyStr tc]
    let r := env.exec cmd none
    if r.exitCode = 0 then
      (Res.ok (), e1 ++
        [Event.ranCmd cmd none,
         Event.printed Color.green "✅ Tests passed successfully!",
         Event.logInfo "Tests passed successfully."])
    else
      (Res.exited 1, e1 ++
        [Event.ranCmd cmd none,
         Event.printed Color.red "❌ Tests failed!",
         Event.logError "Tests failed."])

/-- Model of `run_stage(stage_name)` from `src/PyDeployer.py`: load the
configuration (fatal when missing), then dispatch to `build` or `test`,
warning on any other name.  There is no log pruning in this variant. -/
def run_stage (stage : String) (env : Env) : Res Unit × List Event :=
  match load_config env with
  | (Res.ok config, e1) =>
    if stage = "build" then
      let s := build config env
      (s.1, e1 ++ s.2)
    else if stage = "test" then
      let s := test config env
      (s.1, e1 ++ s.2)
    else
      (Res.ok (), e1 ++
        [Event.printed Color.yellow ("⚠️ Stage \x27" ++ stage ++ "\x27 not implemented yet.")])
  | (Res.exited n, e1) => (Res.exited n, e1)
  | (Res.keyError k, e1) => (Res.keyError k, e1)

end PyDeployer.Docker

namespace PyDeployer

/-- Fixture: process oracle where every command succeeds, with padded stdout
and empty stderr. -/
def execAllOk : List String → Option String → CmdResult :=
  fun _ _ => ⟨0, "  out  ", ""⟩

/-- Fixture: process oracle where every command exits 1 with stderr `boom`. -/
def execAllFail : List String → Option String → CmdResult :=
  fun _ _ => ⟨1, "", "boom"⟩

/-- Fixture: eleven log files matching the run's naming pattern, with
distinct names and distinct modification times. -/
def dir11 : List LogFile :=
  (List.range 11).map (fun i => ⟨"pydeployer_" ++ toString i ++ ".log", i⟩)

/-- Fixture: fifteen log files matching the run's naming pattern, with
distinct names and distinct modification times — the state of `logs/` after
fifteen runs. -/
def dir15 : List LogFile :=
  (List.range 15).map (fun i => ⟨"pydeployer_" ++ toString i ++ ".log", i⟩)

/-- Fixture: a configuration with `repo.url` and `repo.target` set. -/
def cfgUrl : Yaml :=
  Yaml.map [("repo", Yaml.map [("url", Yaml.str "http1"), ("target", Yaml.str "trg")])]

/-- Fixture: git-variant environment with no `pipeline.yml`, every command
succeeding, no existing directories, eleven old log files. -/
def envLogs11 : Git.Env :=
  ⟨execAllOk, false, none, fun _ => false, dir11, "T"⟩

/-- Fixture: git-variant environment with no `pipeline.yml`, every command
succeeding, no existing directories, and an empty log directory. -/
def envNoCfg : Git.Env :=
  ⟨execAllOk, false, none, fun _ => false, [], "T"⟩

/-- Fixture: git-variant environment with `cfgUrl` configured, every command
failing, every directory existing, and an empty log directory. -/
def envGitFail : Git.Env :=
  ⟨execAllFail, true, some cfgUrl, fun _ => true, [], "T"⟩

/-- Fixture: git-variant environment with `cfgUrl` configured, every command
succeeding, every directory existing, and an empty log directory. -/
def envGitOk : Git.Env :=
  ⟨execAllOk, true, some cfgUrl, fun _ => true, [], "T"⟩

/-- Fixture: docker-variant configuration with build image, tag, and test
command all present. -/
def dcfgFull : Yaml :=
  Yaml.map [("stages", Yaml.map
    [("build", Yaml.map [("image_name", Yaml.str "img"), ("tag", Yaml.str "v1")]),
     ("test", Yaml.map [("command", Yaml.str "pytest")])])]

/-- Fixture: docker-variant environment with a full configuration and every
command failing with stderr `boom`. -/
def denvFail : Docker.Env := ⟨execAllFail, true, dcfgFull⟩

/-- Fixture: docker-variant environment with a full configuration and every
command succeeding. -/
def denvOk : Docker.Env := ⟨execAllOk, true, dcfgFull⟩

/-- Fixture: docker-variant environment where `pipeline.yml` is missing. -/
def denvNoCfg : Docker.Env := ⟨execAllOk, false, Yaml.map []⟩

/-- Fixture: docker-variant environment whose configuration is the empty
mapping (every `stages.*` key missing). -/
def denvEmptyCfg : Docker.Env := ⟨execAllOk, true, Yaml.map []⟩

end PyDeployer

namespace PyDeployer.Git

/-- Helper: on exit 0, `runCmd` returns the stripped stdout. -/
theorem runCmd_ok_result (env : Env) (c : List String) (cw : Option String)
    (h : (env.exec c cw).exitCode = 0) :
    (runCmd env c cw).1 = Res.ok (pyStrip (env.exec c cw).stdout) := by
  simp [runCmd, h]

/-- Helper: on a non-zero exit, `runCmd` exits the process with code 1. -/
theorem runCmd_fail_result (env : Env) (c : List String) (cw : Option String)
    (h : (env.exec c cw).exitCode ≠ 0) :
    (runCmd env c cw).1 = Res.exited 1 := by
  simp [runCmd, h]

/-- Helper: on a non-zero exit, `runCmd` logs the raw captured stderr. -/
theorem runCmd_fail_logError (env : Env) (c : List String) (cw : Option String)
    (h : (env.exec c cw).exitCode ≠ 0) :
    Event.logError (env.exec c cw).stderr ∈ (runCmd env c cw).2 := by
  simp [runCmd, h]

/-- Helper: on a non-zero exit, `runCmd` prints a red failure message. -/
theorem runCmd_fail_printed (env : Env) (c : List String) (cw : Option String)
    (h : (env.exec c cw).exitCode ≠ 0) :
    Event.printed Color.red ("❌ Command failed: " ++ joinSpace c)
      ∈ (runCmd env c cw).2 := by
  simp [runCmd, h]

/-- Helper: the trace of `runCmd` contains exactly the one spawn event of the
given command. -/
theorem ranCmd_mem_runCmd (env : Env) (c : List String) (cw : Option String)
    (ca : List String) (cwa : Option String) :
    Event.ranCmd ca cwa ∈ (runCmd env c cw).2 ↔ ca = c ∧ cwa = cw := by
  by_cases h : (env.exec c cw).exitCode = 0
  · by_cases h1 : (env.exec c cw).stdout = "" <;>
      by_cases h2 : (env.exec c cw).stderr = "" <;>
      simp [runCmd, h, h1, h2]
  · simp [runCmd, h]

/-- Helper: `runCmd` spawns its command exactly once. -/
theorem runCmd_count_ranCmd (env : Env) (c : List String) (cw : Option String) :
    (runCmd env c cw).2.countP Event.isRanCmd = 1 := by
  by_cases h : (env.exec c cw).exitCode = 0
  · by_cases h1 : (env.exec c cw).stdout = "" <;>
      by_cases h2 : (env.exec c cw).stderr = "" <;>
      simp [runCmd, h, h1, h2, List.countP_cons, Event.isRanCmd]
  · simp [runCmd, h, List.countP_cons, Event.isRanCmd]

/-- Helper: `runCmd` never deletes a log file. -/
theorem runCmd_no_deletedLog (env : Env) (c : List String) (cw : Option String) :
    ∀ e ∈ (runCmd env c cw).2, e.isDeletedLog = false := by
  intro e he
  cases e <;> try rfl
  exfalso
  by_cases h : (env.exec c cw).exitCode = 0
  · by_cases h1 : (env.exec c cw).stdout = "" <;>
      by_cases h2 : (env.exec c cw).stderr = "" <;>
      simp [runCmd, h, h1, h2] at he
  · simp [runCmd, h] at he

/-- C1: for every command list and working directory, `run_cmd` returns the
command's stripped stdout when the external process exits zero; when the
process exits non-zero it logs the captured stderr, prints a red failure
message, and terminates the whole process with exit code 1; in either case
the command is spawned exactly once (no retry, no recovery). -/
theorem runCmd_contract (env : Env) (c : List String) (cw : Option String) :
    ((env.exec c cw).exitCode = 0 →
      (runCmd env c cw).1 = Res.ok (pyStrip (env.exec c cw).stdout))
    ∧ ((env.exec c cw).exitCode ≠ 0 →
      (runCmd env c cw).1 = Res.exited 1
      ∧ Event.logError (env.exec c cw).stderr ∈ (runCmd env c cw).2
      ∧ Event.printed Color.red ("❌ Command failed: " ++ joinSpace c)
          ∈ (runCmd env c cw).2)
    ∧ (runCmd env c cw).2.countP Event.isRanCmd = 1 := by
  refine ⟨fun h => runCmd_ok_result env c cw h,
         fun h => ⟨runCmd_fail_result env c cw h, runCmd_fail_logError env c cw h,
                   runCmd_fail_printed env c cw h⟩,
         runCmd_count_ranCmd env c cw⟩

/-- Witness for C1: a concrete succeeding command returns the stripped
stdout, and a concrete failing command exits 1 and logs its stderr. -/
theorem runCmd_contract_witness :
    (runCmd envGitOk ["git", "pull"] none).1 = Res.ok "out"
    ∧ (runCmd envGitFail ["git", "pull"] none).1 = Res.exited 1
    ∧ Event.logError "boom" ∈ (runCmd envGitFail ["git", "pull"] none).2 := by
  refine ⟨(runCmd_contract envGitOk ["git", "pull"] none).1 (by decide), ?_, ?_⟩
  · exact ((runCmd_contract envGitFail ["git", "pull"] none).2.1 (by decide)).1
  · exact ((runCmd_contract envGitFail ["git", "pull"] none).2.1 (by decide)).2.1

end PyDeployer.Git

namespace PyDeployer.Git

/-- C4: for every configuration in which `repo.url` is absent or the empty
string, the clone stage terminates the process with exit code 1 without
attempting any external process call. -/
theorem clone_missing_url_exits (config : Yaml) (env : Env)
    (h : (config.getD "repo" (Yaml.map [])).get? "url" = none
       ∨ (config.getD "repo" (Yaml.map [])).get? "url" = some (Yaml.str "")) :
    (clone_repo config env).1 = Res.exited 1
    ∧ ∀ c cw, Event.ranCmd c cw ∉ (clone_repo config env).2 := by
  have ht : optTruthy ((config.getD "repo" (Yaml.map [])).get? "url") = false := by
    rcases h with h | h <;> simp [h, optTruthy, Yaml.isTruthy]
  constructor
  · simp [clone_repo, ht]
  · intro c cw hmem
    simp [clone_repo, ht] at hmem

/-- Witness for C4: with the empty configuration, the clone stage exits 1
and in particular never spawns `git pull`. -/
theorem clone_missing_url_exits_witness :
    (clone_repo (Yaml.map []) envNoCfg).1 = Res.exited 1
    ∧ Event.ranCmd ["git", "pull"] none ∉ (clone_repo (Yaml.map []) envNoCfg).2 := by
  have h := clone_missing_url_exits (Yaml.map []) envNoCfg (Or.inl rfl)
  exact ⟨h.1, h.2 ["git", "pull"] none⟩

/-- C9: in the git-based variant, the build stage with a missing target
directory (`repo.target`, default `target_repo`) prints an error and
terminates with exit code 1 without spawning any git command. -/
theorem build_missing_repo_exits (config : Yaml) (env : Env)
    (h : env.dirExists
      (getStrD ((config.getD "repo" (Yaml.map [])).get? "target") "target_repo") = false) :
    (build config env).1 = Res.exited 1
    ∧ Event.printed Color.red "❌ Repository not cloned yet. Run \x27clone\x27 first."
        ∈ (build config env).2
    ∧ ∀ c cw, Event.ranCmd c cw ∉ (build config env).2 := by
  refine ⟨?_, ?_, ?_⟩
  · simp [build, h]
  · simp [build, h]
  · intro c cw hmem
    simp [build, h] at hmem

/-- Witness for C9: with the empty configuration and no `target_repo`
directory, the build stage exits 1 and never spawns `git add`. -/
theorem build_missing_repo_exits_witness :
    (build (Yaml.map []) envNoCfg).1 = Res.exited 1
    ∧ Event.ranCmd ["git", "add", "."] (some "target_repo")
        ∉ (build (Yaml.map []) envNoCfg).2 := by
  have h := build_missing_repo_exits (Yaml.map []) envNoCfg rfl
  exact ⟨h.1, h.2.2 ["git", "add", "."] (some "target_repo")⟩

/-- C7: for every configuration with `repo.url` present (a non-empty string
scalar; `repo.target` absent or a string), the clone stage runs `git pull`
inside the target directory when that directory exists, and otherwise runs
`git clone url target` (and no other command in either case). -/
theorem clone_with_url_pull_or_clone (config : Yaml) (env : Env) (u td : String)
    (hu : (config.getD "repo" (Yaml.map [])).get? "url" = some (Yaml.str u))
    (hne : u ≠ "")
    (htd : getStrD ((config.getD "repo" (Yaml.map [])).get? "target") "target_repo" = td) :
    (env.dirExists td = true →
      Event.ranCmd ["git", "pull"] (some td) ∈ (clone_repo config env).2
      ∧ ∀ ca cwa, Event.ranCmd ca cwa ∈ (clone_repo config env).2 →
          ca = ["git", "pull"] ∧ cwa = some td)
    ∧ (env.dirExists td = false →
      Event.ranCmd ["git", "clone", u, td] none ∈ (clone_repo config env).2
      ∧ ∀ ca cwa, Event.ranCmd ca cwa ∈ (clone_repo config env).2 →
          ca = ["git", "clone", u, td] ∧ cwa = none) := by
  have hdata : u.data.isEmpty = false := by
    cases u with
    | mk l =>
      cases l with
      | nil => exact absurd rfl hne
      | cons a t => rfl
  have htr : optTruthy ((config.getD "repo" (Yaml.map [])).get? "url") = true := by
    simp [hu, optTruthy, Yaml.isTruthy, hdata]
  constructor
  · intro hdir
    rcases hr : runCmd env ["git", "pull"] (some td) with ⟨r, ec⟩
    have hsub : Event.ranCmd ["git", "pull"] (some td) ∈ ec := by
      have h2 := (ranCmd_mem_runCmd env ["git", "pull"] (some td)
        ["git", "pull"] (some td)).mpr ⟨rfl, rfl⟩
      rw [hr] at h2
      exact h2
    refine ⟨?_, ?_⟩
    · cases r <;> simp [clone_repo, htr, htd, hdir, hr, hsub]
    · intro ca cwa hmem
      have h2 : Event.ranCmd ca cwa ∈ ec := by
        cases r <;> simpa [clone_repo, htr, htd, hdir, hr] using hmem
      exact (ranCmd_mem_runCmd env ["git", "pull"] (some td) ca cwa).mp
        (by rw [hr]; exact h2)
  · intro hdir
    rcases hr : runCmd env ["git", "clone", u, td] none with ⟨r, ec⟩
    have hsub : Event.ranCmd ["git", "clone", u, td] none ∈ ec := by
      have h2 := (ranCmd_mem_runCmd env ["git", "clone", u, td] none
        ["git", "clone", u, td] none).mpr ⟨rfl, rfl⟩
      rw [hr] at h2
      exact h2
    refine ⟨?_, ?_⟩
    · cases r <;>
        simp [clone_repo, hu, optTruthy, Yaml.isTruthy, hdata, htd, hdir, hr, hsub,
          optStr, pyStr]
    · intro ca cwa hmem
      have h2 : Event.ranCmd ca cwa ∈ ec := by
        cases r <;>
          simpa [clone_repo, hu, optTruthy, Yaml.isTruthy, hdata, htd, hdir, hr,
            optStr, pyStr] using hmem
      exact (ranCmd_mem_runCmd env ["git", "clone", u, td] none ca cwa).mp
        (by rw [hr]; exact h2)

/-- Witness for C7: with `cfgUrl` and the target directory existing, the
clone stage runs exactly `git pull` in the target directory. -/
theorem clone_with_url_pull_or_clone_witness :
    Event.ranCmd ["git", "pull"] (some "trg") ∈ (clone_repo cfgUrl envGitOk).2 := by
  exact ((clone_with_url_pull_or_clone cfgUrl envGitOk "http1" "trg" rfl
    (by decide) rfl).1 rfl).1

end PyDeployer.Git

namespace PyDeployer.Git

/-- Helper: a list sorted newest-first whose modification times are distinct
is strictly descending. -/
theorem sorted_strict_of_distinct {S : List LogFile}
    (hs : List.Sorted mtGe S)
    (hd : S.Pairwise (fun a b => a.mtime ≠ b.mtime)) :
    S.Pairwise (fun a b => b.mtime < a.mtime) := by
  have h := List.Pairwise.and hs hd
  exact h.imp (fun hab => lt_of_le_of_ne hab.1 (Ne.symm hab.2))

/-- Helper: in a strictly descending list, an element lies among the first
`n` exactly when fewer than `n` elements have a strictly larger
modification time. -/
theorem mem_take_iff_countP_lt :
    ∀ (S : List LogFile), S.Pairwise (fun a b => b.mtime < a.mtime) →
    ∀ x ∈ S, ∀ n : Nat,
      (x ∈ S.take n ↔ S.countP (fun g => decide (x.mtime < g.mtime)) < n) := by
  intro S
  induction S with
  | nil =>
    intro _ x hx
    cases hx
  | cons a t ih =>
    intro hp x hx n
    rcases List.pairwise_cons.mp hp with ⟨ha, ht⟩
    cases n with
    | zero => simp
    | succ m =>
      by_cases hxa : x = a
      · subst hxa
        have hc : t.countP (fun g => decide (x.mtime < g.mtime)) = 0 :=
          List.countP_eq_zero.mpr (fun g hg => by
            simpa using Nat.lt_asymm (ha g hg))
        simp [List.take_succ_cons, List.countP_cons, hc]
      · have hxt : x ∈ t := by
          rcases List.mem_cons.mp hx with h | h
          · exact absurd h hxa
          · exact h
        have hlt : x.mtime < a.mtime := ha x hxt
        have hih := ih ht x hxt m
        simp [List.take_succ_cons, List.countP_cons, hxa, hlt, hih]

/-- C2: `clean_old_logs` leaves non-matching files untouched, deletes no
file it did not have, and keeps a matching file exactly when fewer than 10
matching files are more recently modified; when at least 10 matching files
exist exactly 10 remain, and with at most 10 the directory is unchanged.
(Stated for directories with distinct file names and distinct modification
times among the matching files.) -/
theorem clean_old_logs_keeps_ten_newest (dir : List LogFile)
    (hn : (dir.map LogFile.name).Nodup)
    (hd : (dir.filter (fun f => matchesLogName f.name)).Pairwise
        (fun a b => a.mtime ≠ b.mtime)) :
    (∀ f ∈ dir, matchesLogName f.name = false → f ∈ (clean_old_logs dir).1)
    ∧ (clean_old_logs dir).1.Sublist dir
    ∧ (∀ f ∈ dir, matchesLogName f.name = true →
        (f ∈ (clean_old_logs dir).1 ↔
          (dir.filter (fun f => matchesLogName f.name)).countP
            (fun g => decide (f.mtime < g.mtime)) < 10))
    ∧ (10 ≤ (dir.filter (fun f => matchesLogName f.name)).length →
        ((clean_old_logs dir).1.filter (fun f => matchesLogName f.name)).length = 10)
    ∧ ((dir.filter (fun f => matchesLogName f.name)).length ≤ 10 →
        (clean_old_logs dir).1 = dir) := by
  set L := dir.filter (fun f => matchesLogName f.name) with hL
  set S := L.insertionSort mtGe with hS
  set old := S.drop 10 with hold
  have hclean : (clean_old_logs dir).1 =
      dir.filter (fun f => old.all (fun g => g.name != f.name)) := rfl
  have hperm : S.Perm L := List.perm_insertionSort mtGe L
  have hsorted : List.Sorted mtGe S := List.sorted_insertionSort mtGe L
  have hdS : S.Pairwise (fun a b => a.mtime ≠ b.mtime) :=
    (hperm.pairwise_iff (fun hxy => Ne.symm hxy)).mpr hd
  have hstrict : S.Pairwise (fun a b => b.mtime < a.mtime) :=
    sorted_strict_of_distinct hsorted hdS
  have hdirN : dir.Nodup := List.Nodup.of_map LogFile.name hn
  have hLsub : L.Sublist dir := List.filter_sublist dir
  have hLN : L.Nodup := hLsub.nodup hdirN
  have hSN : S.Nodup := hperm.nodup_iff.mpr hLN
  have holdsub : ∀ g ∈ old, g ∈ dir ∧ matchesLogName g.name = true := by
    intro g hg
    have hgS : g ∈ S := List.mem_of_mem_drop hg
    have hgL : g ∈ L := hperm.mem_iff.mp hgS
    exact List.mem_filter.mp hgL
  have hinj : ∀ x ∈ dir, ∀ y ∈ dir, x.name = y.name → x = y := by
    intro x hx y hy hxy
    exact List.inj_on_of_nodup_map hn hx hy hxy
  have hkeep : ∀ f ∈ dir, ((old.all (fun g => g.name != f.name)) = true ↔ f ∉ old) := by
    intro f hf
    constructor
    · intro hall hmem
      have := List.all_eq_true.mp hall f hmem
      simp at this
    · intro hnot
      refine List.all_eq_true.mpr ?_
      intro g hg
      rw [bne_iff_ne]
      intro heq
      have hgd := (holdsub g hg).1
      have : g = f := hinj g hgd f hf heq
      exact hnot (this ▸ hg)
  have hmemclean : ∀ f ∈ dir, (f ∈ (clean_old_logs dir).1 ↔ f ∉ old) := by
    intro f hf
    rw [hclean]
    constructor
    · intro hmem
      exact (hkeep f hf).mp (List.mem_filter.mp hmem).2
    · intro hnot
      exact List.mem_filter.mpr ⟨hf, (hkeep f hf).mpr hnot⟩
  have hTD : S.take 10 ++ old = S := List.take_append_drop 10 S
  have hdisj : ∀ {x}, x ∈ S.take 10 → x ∉ old := by
    intro x
    have h2 : (S.take 10 ++ old).Nodup := by rw [hTD]; exact hSN
    rcases List.nodup_append.mp h2 with ⟨_, _, hdj⟩
    exact fun hx hmem => hdj hx hmem
  have hsplit : ∀ {f}, f ∈ S → (f ∉ old ↔ f ∈ S.take 10) := by
    intro f hfS
    constructor
    · intro hnot
      have hfm : f ∈ S.take 10 ++ old := by rw [hTD]; exact hfS
      rcases List.mem_append.mp hfm with h | h
      · exact h
      · exact absurd h hnot
    · intro ht
      exact hdisj ht
  refine ⟨?_, ?_, ?_, ?_, ?_⟩
  · intro f hf hm
    refine (hmemclean f hf).mpr ?_
    intro hmem
    have := (holdsub f hmem).2
    rw [hm] at this
    cases this
  · rw [hclean]
    exact List.filter_sublist dir
  · intro f hf hm
    have hfL : f ∈ L := List.mem_filter.mpr ⟨hf, hm⟩
    have hfS : f ∈ S := hperm.mem_iff.mpr hfL
    rw [hmemclean f hf, hsplit hfS,
      mem_take_iff_countP_lt S hstrict f hfS 10, hperm.countP_eq]
  · intro hlen
    rw [hclean, List.filter_comm, ← hL]
    rw [← List.countP_eq_length_filter, ← hperm.countP_eq, ← hTD, List.countP_append]
    have h1 : (S.take 10).countP (fun f => old.all (fun g => g.name != f.name))
        = (S.take 10).length := by
      refine List.countP_eq_length.mpr ?_
      intro g hg
      have hgS : g ∈ S := List.take_subset 10 S hg
      have hgd : g ∈ dir := (List.mem_filter.mp (hperm.mem_iff.mp hgS)).1
      exact (hkeep g hgd).mpr (hdisj hg)
    have h2 : old.countP (fun f => old.all (fun g => g.name != f.name)) = 0 := by
      refine List.countP_eq_zero.mpr ?_
      intro g hg hq
      exact ((hkeep g (holdsub g hg).1).mp hq) hg
    rw [h1, h2, List.length_take]
    have hSlen : 10 ≤ S.length := by rw [hperm.length_eq]; exact hlen
    omega
  · intro hlen
    have hSlen : S.length ≤ 10 := by rw [hperm.length_eq]; exact hlen
    have hold0 : old = [] := by rw [hold]; exact List.drop_eq_nil_iff.mpr hSlen
    rw [hclean, hold0]
    simp

/-- Witness for C2 (the fifteen-run scenario): with fifteen matching log
files present, cleaning leaves exactly 10 matching log files. -/
theorem clean_old_logs_keeps_ten_newest_witness :
    ((clean_old_logs dir15).1.filter (fun f => matchesLogName f.name)).length = 10 :=
  (clean_old_logs_keeps_ten_newest dir15 (by decide) (by decide)).2.2.2.1 (by decide)

end PyDeployer.Git

namespace PyDeployer

/-- Counterexample for C3 as stated: requesting the unknown stage `bogus`
in the git-based variant is not free of filesystem side effects — with
eleven matching log files present, the run still prunes the oldest one
(while returning normally). -/
theorem unknown_stage_side_effect_cex :
    Event.deletedLog "pydeployer_0.log" ∈ (Git.run_stage "bogus" envLogs11).2
    ∧ (Git.run_stage "bogus" envLogs11).1 = Res.ok () := by decide

/-- C3 (amended): for every stage name outside the recognized set, the
git-based `run_stage` prints the warning, invokes no stage handler, spawns
no external process, and returns normally (exit 0) — though configuration
loading and log pruning still run first and the latter may delete old log
files; the docker-based `run_stage`, provided `pipeline.yml` exists, prints
only the warning and performs no other side effect. -/
theorem unknown_stage_amended (name : String)
    (h : name ∉ (["clone", "build", "test", "deploy", "rollback"] : List String)) :
    (∀ env : Git.Env,
      (Git.run_stage name env).1 = Res.ok ()
      ∧ (∀ c cw, Event.ranCmd c cw ∉ (Git.run_stage name env).2)
      ∧ Event.printed Color.yellow ("⚠️ Stage \x27" ++ name ++ "\x27 not implemented yet.")
          ∈ (Git.run_stage name env).2)
    ∧ (∀ denv : Docker.Env, denv.pipelineExists = true →
      Docker.run_stage name denv =
        (Res.ok (), [Event.printed Color.yellow
          ("⚠️ Stage \x27" ++ name ++ "\x27 not implemented yet.")])) := by
  simp only [List.mem_cons, List.not_mem_nil, or_false, not_or] at h
  obtain ⟨h1, h2, h3, h4, h5⟩ := h
  constructor
  · intro env
    refine ⟨?_, ?_, ?_⟩
    · simp [Git.run_stage, h1, h2, h3, h4, h5]
    · intro c cw hmem
      by_cases hpe : env.pipelineExists = true <;>
        simp [Git.run_stage, Git.load_config, Git.clean_old_logs, hpe,
          h1, h2, h3, h4, h5] at hmem
    · by_cases hpe : env.pipelineExists = true <;>
        simp [Git.run_stage, Git.load_config, hpe, h1, h2, h3, h4, h5]
  · intro denv hpe
    simp [Docker.run_stage, Docker.load_config, hpe, h2, h3]

/-- Witness for C3 (amended): the concrete unknown stage `bogus` returns
normally in both variants, having warned. -/
theorem unknown_stage_amended_witness :
    (Git.run_stage "bogus" envNoCfg).1 = Res.ok ()
    ∧ Docker.run_stage "bogus" denvOk =
        (Res.ok (), [Event.printed Color.yellow
          ("⚠️ Stage \x27" ++ "bogus" ++ "\x27 not implemented yet.")]) := by
  have h := unknown_stage_amended "bogus" (by decide)
  exact ⟨(h.1 envNoCfg).1, h.2 denvOk rfl⟩

/-- Counterexample for C6 as stated: in the docker-based variant a missing
`pipeline.yml` is fatal — `load_config` prints an error and exits 1 rather
than returning an empty mapping, and the requested build stage is never
attempted (no process is spawned). -/
theorem missing_config_fatal_cex :
    Docker.load_config denvNoCfg =
      (Res.exited 1, [Event.printed Color.red "❌ pipeline.yml not found!"])
    ∧ (Docker.run_stage "build" denvNoCfg).1 = Res.exited 1
    ∧ (Docker.run_stage "build" denvNoCfg).2.countP Event.isRanCmd = 0 := by
  exact ⟨rfl, rfl, by decide⟩

/-- C6 (amended): with no `pipeline.yml`, the git-based `load_config` warns
and returns the empty mapping, and the run proceeds to the requested stage
using the documented defaults (`repo.target` `target_repo`, `test.command`
`pytest -v`, `deploy.branch` `main`); the docker-based `load_config` is
instead fatal, printing an error and exiting 1. -/
theorem missing_config_amended :
    (∀ env : Git.Env, env.pipelineExists = false →
      Git.load_config env = (Yaml.map [],
        [Event.printed Color.yellow "⚠️ pipeline.yml not found, continuing with defaults."])
      ∧ Event.ranCmd ["pytest", "-v"] (some "target_repo") ∈ (Git.run_stage "test" env).2
      ∧ Event.ranCmd ["git", "pull", "origin", "main", "--rebase"] (some "target_repo")
          ∈ (Git.run_stage "deploy" env).2)
    ∧ (∀ denv : Docker.Env, denv.pipelineExists = false →
      Docker.load_config denv =
        (Res.exited 1, [Event.printed Color.red "❌ pipeline.yml not found!"])
      ∧ (Docker.run_stage "build" denv).1 = Res.exited 1) := by
  have hne1 : ¬ (("test" : String) = "clone") := by decide
  have hne2 : ¬ (("test" : String) = "build") := by decide
  have hnd1 : ¬ (("deploy" : String) = "clone") := by decide
  have hnd2 : ¬ (("deploy" : String) = "build") := by decide
  have hnd3 : ¬ (("deploy" : String) = "test") := by decide
  constructor
  · intro env hpe
    refine ⟨by simp [Git.load_config, hpe], ?_, ?_⟩
    · have hps : pySplit "pytest -v" = ["pytest", "-v"] := by decide
      rcases hr : Git.runCmd env ["pytest", "-v"] (some "target_repo") with ⟨r, ec⟩
      have hsub : Event.ranCmd ["pytest", "-v"] (some "target_repo") ∈ ec := by
        have hm := (Git.ranCmd_mem_runCmd env ["pytest", "-v"] (some "target_repo")
          ["pytest", "-v"] (some "target_repo")).mpr ⟨rfl, rfl⟩
        rw [hr] at hm
        exact hm
      cases r <;>
        simp [Git.run_stage, Git.load_config, hpe, Git.test, getStrD, Yaml.getD,
          Yaml.get?, lookupEntries, hne1, hne2, hps, hr, hsub]
    · rcases hr : Git.runCmd env ["git", "pull", "origin", "main", "--rebase"]
          (some "target_repo") with ⟨r, ec⟩
      have hsub : Event.ranCmd ["git", "pull", "origin", "main", "--rebase"]
          (some "target_repo") ∈ ec := by
        have hm := (Git.ranCmd_mem_runCmd env ["git", "pull", "origin", "main", "--rebase"]
          (some "target_repo") ["git", "pull", "origin", "main", "--rebase"]
          (some "target_repo")).mpr ⟨rfl, rfl⟩
        rw [hr] at hm
        exact hm
      cases r with
      | ok v =>
        rcases hr2 : Git.runCmd env ["git", "push", "origin", "main"]
            (some "target_repo") with ⟨r2, e2⟩
        cases r2 <;>
          simp [Git.run_stage, Git.load_config, hpe, Git.deploy, getStrD, Yaml.getD,
            Yaml.get?, lookupEntries, hnd1, hnd2, hnd3, hr, hr2, hsub]
      | exited n =>
        simp [Git.run_stage, Git.load_config, hpe, Git.deploy, getStrD, Yaml.getD,
          Yaml.get?, lookupEntries, hnd1, hnd2, hnd3, hr, hsub]
      | keyError k =>
        simp [Git.run_stage, Git.load_config, hpe, Git.deploy, getStrD, Yaml.getD,
          Yaml.get?, lookupEntries, hnd1, hnd2, hnd3, hr, hsub]
  · intro denv hpe
    refine ⟨by simp [Docker.load_config, hpe], ?_⟩
    simp [Docker.run_stage, Docker.load_config, hpe]

/-- Witness for C6 (amended): at the concrete environment with no
`pipeline.yml`, the git variant runs the default test command in the
default target directory while the docker variant exits 1. -/
theorem missing_config_amended_witness :
    Event.ranCmd ["pytest", "-v"] (some "target_repo")
      ∈ (Git.run_stage "test" envNoCfg).2
    ∧ (Docker.run_stage "build" denvNoCfg).1 = Res.exited 1 := by
  have h := missing_config_amended
  exact ⟨(h.1 envNoCfg rfl).2.1, (h.2 denvNoCfg rfl).2⟩

end PyDeployer

namespace PyDeployer.Git

/-- Helper: a normal `runCmd` return means the process exited 0. -/
theorem runCmd_fst_ok {env : Env} {c : List String} {cw : Option String}
    {v : String} {ec : List Event}
    (hr : runCmd env c cw = (Res.ok v, ec)) :
    (env.exec c cw).exitCode = 0 := by
  by_contra hne
  have h := runCmd_fail_result env c cw hne
  rw [hr] at h
  cases h

/-- Helper: a `runCmd` exit means the process exited non-zero and the exit
code is 1. -/
theorem runCmd_fst_exited {env : Env} {c : List String} {cw : Option String}
    {n : Nat} {ec : List Event}
    (hr : runCmd env c cw = (Res.exited n, ec)) :
    (env.exec c cw).exitCode ≠ 0 ∧ n = 1 := by
  by_cases h0 : (env.exec c cw).exitCode = 0
  · have h := runCmd_ok_result env c cw h0
    rw [hr] at h
    cases h
  · have h := runCmd_fail_result env c cw h0
    rw [hr] at h
    exact ⟨h0, by simpa using h⟩

/-- Helper: `runCmd` never raises a lookup error. -/
theorem runCmd_fst_not_keyError {env : Env} {c : List String} {cw : Option String}
    {k : String} {ec : List Event}
    (hr : runCmd env c cw = (Res.keyError k, ec)) : False := by
  by_cases h0 : (env.exec c cw).exitCode = 0
  · have h := runCmd_ok_result env c cw h0
    rw [hr] at h
    cases h
  · have h := runCmd_fail_result env c cw h0
    rw [hr] at h
    cases h

/-- Helper: the stderr of a failed command is logged among the events
returned by `runCmd`. -/
theorem runCmd_snd_logError {env : Env} {c : List String} {cw : Option String}
    {r : Res String} {ec : List Event}
    (hr : runCmd env c cw = (r, ec))
    (hf : (env.exec c cw).exitCode ≠ 0) :
    Event.logError (env.exec c cw).stderr ∈ ec := by
  have h := runCmd_fail_logError env c cw hf
  rw [hr] at h
  exact h

/-- Helper: the spawn events in a `runCmd` trace identify the command. -/
theorem runCmd_snd_ranCmd {env : Env} {c : List String} {cw : Option String}
    {r : Res String} {ec : List Event} {ca : List String} {cwa : Option String}
    (hr : runCmd env c cw = (r, ec)) :
    (Event.ranCmd ca cwa ∈ ec ↔ ca = c ∧ cwa = cw) := by
  have h := ranCmd_mem_runCmd env c cw ca cwa
  rw [hr] at h
  exact h

/-- Helper: membership of a deletion event contradicts a no-deletion bound. -/
theorem no_del_of_mem {l : List Event}
    (h : ∀ e ∈ l, e.isDeletedLog = false) {a : String}
    (hm : Event.deletedLog a ∈ l) : False := by
  simpa [Event.isDeletedLog] using h _ hm

/-- Helper: neither loading the configuration nor pruning old logs spawns an
external process. -/
theorem pre_no_ranCmd (env : Env) (ca : List String) (cwa : Option String) :
    Event.ranCmd ca cwa ∉ (load_config env).2 ++ (clean_old_logs env.logDir).2 := by
  intro h
  by_cases hpe : env.pipelineExists = true <;>
    simp [load_config, clean_old_logs, hpe] at h

/-- Helper: predicate form of `pre_no_ranCmd`. -/
theorem pre_no_ran (env : Env) :
    ∀ e ∈ (load_config env).2 ++ (clean_old_logs env.logDir).2,
      e.isRanCmd = false := by
  intro e he
  cases e <;> try rfl
  exact absurd he (pre_no_ranCmd env _ _)

/-- Helper: in a trace that is a prefix without spawn events followed by a
suffix without deletion events, every deletion precedes every spawn. -/
theorem mem_split_lt {A B : List Event}
    (hB : ∀ e ∈ B, e.isDeletedLog = false)
    (hA : ∀ e ∈ A, e.isRanCmd = false) :
    ∀ i j (hi : i < (A ++ B).length) (hj : j < (A ++ B).length),
      ((A ++ B).get ⟨i, hi⟩).isDeletedLog = true →
      ((A ++ B).get ⟨j, hj⟩).isRanCmd = true → i < j := by
  intro i j hi hj hdel hran
  rw [List.get_eq_getElem] at hdel hran
  have hlen : (A ++ B).length = A.length + B.length := List.length_append A B
  have hiA : i < A.length := by
    by_contra hge
    push_neg at hge
    rw [List.getElem_append_right hge] at hdel
    have hmem : B[i - A.length] ∈ B := List.getElem_mem _
    rw [hB _ hmem] at hdel
    cases hdel
  have hjA : A.length ≤ j := by
    by_contra hlt
    push_neg at hlt
    rw [List.getElem_append_left hlt] at hran
    have hmem : A[j] ∈ A := List.getElem_mem _
    rw [hA _ hmem] at hran
    cases hran
  omega

/-- Helper: unfolding `run_stage` at the clone stage. -/
theorem run_stage_eq_clone (env : Env) :
    run_stage "clone" env =
      ((clone_repo (load_config env).1 env).1,
       ((load_config env).2 ++ (clean_old_logs env.logDir).2)
         ++ (clone_repo (load_config env).1 env).2) := by
  simp [run_stage]

/-- Helper: unfolding `run_stage` at the build stage. -/
theorem run_stage_eq_build (env : Env) :
    run_stage "build" env =
      ((build (load_config env).1 env).1,
       ((load_config env).2 ++ (clean_old_logs env.logDir).2)
         ++ (build (load_config env).1 env).2) := by
  have h1 : ¬ (("build" : String) = "clone") := by decide
  simp [run_stage, h1]

/-- Helper: unfolding `run_stage` at the test stage. -/
theorem run_stage_eq_test (env : Env) :
    run_stage "test" env =
      ((test (load_config env).1 env).1,
       ((load_config env).2 ++ (clean_old_logs env.logDir).2)
         ++ (test (load_config env).1 env).2) := by
  have h1 : ¬ (("test" : String) = "clone") := by decide
  have h2 : ¬ (("test" : String) = "build") := by decide
  simp [run_stage, h1, h2]

/-- Helper: unfolding `run_stage` at the deploy stage. -/
theorem run_stage_eq_deploy (env : Env) :
    run_stage "deploy" env =
      ((deploy (load_config env).1 env).1,
       ((load_config env).2 ++ (clean_old_logs env.logDir).2)
         ++ (deploy (load_config env).1 env).2) := by
  have h1 : ¬ (("deploy" : String) = "clone") := by decide
  have h2 : ¬ (("deploy" : String) = "build") := by decide
  have h3 : ¬ (("deploy" : String) = "test") := by decide
  simp [run_stage, h1, h2, h3]

/-- Helper: unfolding `run_stage` at the rollback stage. -/
theorem run_stage_eq_rollback (env : Env) :
    run_stage "rollback" env =
      ((rollback (load_config env).1 env).1,
       ((load_config env).2 ++ (clean_old_logs env.logDir).2)
         ++ (rollback (load_config env).1 env).2) := by
  have h1 : ¬ (("rollback" : String) = "clone") := by decide
  have h2 : ¬ (("rollback" : String) = "build") := by decide
  have h3 : ¬ (("rollback" : String) = "test") := by decide
  have h4 : ¬ (("rollback" : String) = "deploy") := by decide
  simp [run_stage, h1, h2, h3, h4]

/-- Helper: unfolding `run_stage` at an unknown stage name. -/
theorem run_stage_eq_unknown (name : String) (env : Env)
    (h1 : name ≠ "clone") (h2 : name ≠ "build") (h3 : name ≠ "test")
    (h4 : name ≠ "deploy") (h5 : name ≠ "rollback") :
    run_stage name env =
      (Res.ok (),
       ((load_config env).2 ++ (clean_old_logs env.logDir).2)
         ++ [Event.printed Color.yellow
              ("⚠️ Stage \x27" ++ name ++ "\x27 not implemented yet.")]) := by
  simp [run_stage, h1, h2, h3, h4, h5]

end PyDeployer.Git

namespace PyDeployer.Git

/-- Helper: the clone stage never deletes a log file. -/
theorem clone_no_deletedLog (config : Yaml) (env : Env) :
    ∀ e ∈ (clone_repo config env).2, e.isDeletedLog = false := by
  intro e he
  cases e <;> try rfl
  exfalso
  by_cases htr : optTruthy ((config.getD "repo" (Yaml.map [])).get? "url") = false
  · simp [clone_repo, htr] at he
  · by_cases hdir : env.dirExists
        (getStrD ((config.getD "repo" (Yaml.map [])).get? "target") "target_repo") = true
    · rcases hr : runCmd env ["git", "pull"]
          (some (getStrD ((config.getD "repo" (Yaml.map [])).get? "target") "target_repo"))
        with ⟨r, ec⟩
      have hd := runCmd_no_deletedLog env ["git", "pull"]
          (some (getStrD ((config.getD "repo" (Yaml.map [])).get? "target") "target_repo"))
      rw [hr] at hd
      cases r <;> (simp [clone_repo, htr, hdir, hr] at he; exact no_del_of_mem hd he)
    · rcases hr : runCmd env
          ["git", "clone", optStr ((config.getD "repo" (Yaml.map [])).get? "url"),
           getStrD ((config.getD "repo" (Yaml.map [])).get? "target") "target_repo"] none
        with ⟨r, ec⟩
      have hd := runCmd_no_deletedLog env
          ["git", "clone", optStr ((config.getD "repo" (Yaml.map [])).get? "url"),
           getStrD ((config.getD "repo" (Yaml.map [])).get? "target") "target_repo"] none
      rw [hr] at hd
      cases r <;> (simp [clone_repo, htr, hdir, hr] at he; exact no_del_of_mem hd he)

/-- Helper: the clone stage returns normally or exits 1. -/
theorem clone_result (config : Yaml) (env : Env) :
    (clone_repo config env).1 = Res.ok () ∨ (clone_repo config env).1 = Res.exited 1 := by
  by_cases htr : optTruthy ((config.getD "repo" (Yaml.map [])).get? "url") = false
  · right; simp [clone_repo, htr]
  · by_cases hdir : env.dirExists
        (getStrD ((config.getD "repo" (Yaml.map [])).get? "target") "target_repo") = true
    · rcases hr : runCmd env ["git", "pull"]
          (some (getStrD ((config.getD "repo" (Yaml.map [])).get? "target") "target_repo"))
        with ⟨r, ec⟩
      cases r with
      | keyError k => exact (runCmd_fst_not_keyError hr).elim
      | exited n =>
        obtain ⟨_, hn⟩ := runCmd_fst_exited hr
        subst hn
        right; simp [clone_repo, htr, hdir, hr, resUnit]
      | ok v => left; simp [clone_repo, htr, hdir, hr]
    · rcases hr : runCmd env
          ["git", "clone", optStr ((config.getD "repo" (Yaml.map [])).get? "url"),
           getStrD ((config.getD "repo" (Yaml.map [])).get? "target") "target_repo"] none
        with ⟨r, ec⟩
      cases r with
      | keyError k => exact (runCmd_fst_not_keyError hr).elim
      | exited n =>
        obtain ⟨_, hn⟩ := runCmd_fst_exited hr
        subst hn
        right; simp [clone_repo, htr, hdir, hr, resUnit]
      | ok v => left; simp [clone_repo, htr, hdir, hr]

/-- Helper: the git build stage never deletes a log file. -/
theorem build_no_deletedLog (config : Yaml) (env : Env) :
    ∀ e ∈ (build config env).2, e.isDeletedLog = false := by
  intro e he
  cases e <;> try rfl
  exfalso
  by_cases hdir : env.dirExists
      (getStrD ((config.getD "repo" (Yaml.map [])).get? "target") "target_repo") = false
  · simp [build, hdir] at he
  · rcases hr1 : runCmd env ["git", "add", "."]
        (some (getStrD ((config.getD "repo" (Yaml.map [])).get? "target") "target_repo"))
      with ⟨r1, ec1⟩
    have hd1 := runCmd_no_deletedLog env ["git", "add", "."]
        (some (getStrD ((config.getD "repo" (Yaml.map [])).get? "target") "target_repo"))
    rw [hr1] at hd1
    cases r1 with
    | keyError k => exact runCmd_fst_not_keyError hr1
    | exited n =>
      simp [build, hdir, hr1] at he
      exact no_del_of_mem hd1 he
    | ok v =>
      rcases hr2 : runCmd env ["git", "commit", "-m", "Build commit at " ++ env.now]
          (some (getStrD ((config.getD "repo" (Yaml.map [])).get? "target") "target_repo"))
        with ⟨r2, ec2⟩
      have hd2 := runCmd_no_deletedLog env
          ["git", "commit", "-m", "Build commit at " ++ env.now]
          (some (getStrD ((config.getD "repo" (Yaml.map [])).get? "target") "target_repo"))
      rw [hr2] at hd2
      cases r2 <;>
        (simp [build, hdir, hr1, hr2] at he
         rcases he with he | he
         · exact no_del_of_mem hd1 he
         · exact no_del_of_mem hd2 he)

/-- Helper: the git build stage returns normally or exits 1. -/
theorem build_result (config : Yaml) (env : Env) :
    (build config env).1 = Res.ok () ∨ (build config env).1 = Res.exited 1 := by
  by_cases hdir : env.dirExists
      (getStrD ((config.getD "repo" (Yaml.map [])).get? "target") "target_repo") = false
  · right; simp [build, hdir]
  · rcases hr1 : runCmd env ["git", "add", "."]
        (some (getStrD ((config.getD "repo" (Yaml.map [])).get? "target") "target_repo"))
      with ⟨r1, ec1⟩
    cases r1 with
    | keyError k => exact (runCmd_fst_not_keyError hr1).elim
    | exited n =>
      obtain ⟨_, hn⟩ := runCmd_fst_exited hr1
      subst hn
      right; simp [build, hdir, hr1, resUnit]
    | ok v =>
      rcases hr2 : runCmd env ["git", "commit", "-m", "Build commit at " ++ env.now]
          (some (getStrD ((config.getD "repo" (Yaml.map [])).get? "target") "target_repo"))
        with ⟨r2, ec2⟩
      cases r2 with
      | keyError k => exact (runCmd_fst_not_keyError hr2).elim
      | exited n =>
        obtain ⟨_, hn⟩ := runCmd_fst_exited hr2
        subst hn
        right; simp [build, hdir, hr1, hr2, resUnit]
      | ok v2 => left; simp [build, hdir, hr1, hr2]

/-- Helper: when a command spawned by the git build stage fails, the stage
exits 1 and logs that command's stderr. -/
theorem build_cmd_failure (config : Yaml) (env : Env)
    (c : List String) (cw : Option String)
    (hmem : Event.ranCmd c cw ∈ (build config env).2)
    (hfail : (env.exec c cw).exitCode ≠ 0) :
    (build config env).1 = Res.exited 1
    ∧ Event.logError (env.exec c cw).stderr ∈ (build config env).2 := by
  by_cases hdir : env.dirExists
      (getStrD ((config.getD "repo" (Yaml.map [])).get? "target") "target_repo") = false
  · exfalso
    simp [build, hdir] at hmem
  · rcases hr1 : runCmd env ["git", "add", "."]
        (some (getStrD ((config.getD "repo" (Yaml.map [])).get? "target") "target_repo"))
      with ⟨r1, ec1⟩
    cases r1 with
    | keyError k => exact (runCmd_fst_not_keyError hr1).elim
    | exited n =>
      obtain ⟨hf1, hn⟩ := runCmd_fst_exited hr1
      subst hn
      have hmem2 : Event.ranCmd c cw ∈ ec1 := by
        have h := hmem
        simp [build, hdir, hr1] at h
        exact h
      obtain ⟨hc, hcw⟩ := (runCmd_snd_ranCmd hr1).mp hmem2
      subst hc; subst hcw
      have hl := runCmd_snd_logError hr1 hf1
      exact ⟨by simp [build, hdir, hr1, resUnit], by simp [build, hdir, hr1, hl]⟩
    | ok v =>
      have hf1 := runCmd_fst_ok hr1
      rcases hr2 : runCmd env ["git", "commit", "-m", "Build commit at " ++ env.now]
          (some (getStrD ((config.getD "repo" (Yaml.map [])).get? "target") "target_repo"))
        with ⟨r2, ec2⟩
      cases r2 with
      | keyError k => exact (runCmd_fst_not_keyError hr2).elim
      | exited n =>
        obtain ⟨hf2, hn⟩ := runCmd_fst_exited hr2
        subst hn
        have hmem2 : Event.ranCmd c cw ∈ ec1 ∨ Event.ranCmd c cw ∈ ec2 := by
          have h := hmem
          simp [build, hdir, hr1, hr2] at h
          exact h
        rcases hmem2 with hm | hm
        · obtain ⟨hc, hcw⟩ := (runCmd_snd_ranCmd hr1).mp hm
          subst hc; subst hcw
          exact absurd hf1 hfail
        · obtain ⟨hc, hcw⟩ := (runCmd_snd_ranCmd hr2).mp hm
          subst hc; subst hcw
          have hl := runCmd_snd_logError hr2 hf2
          exact ⟨by simp [build, hdir, hr1, hr2, resUnit],
                 by simp [build, hdir, hr1, hr2, hl]⟩
      | ok v2 =>
        have hf2 := runCmd_fst_ok hr2
        have hmem2 : Event.ranCmd c cw ∈ ec1 ∨ Event.ranCmd c cw ∈ ec2 := by
          have h := hmem
          simp [build, hdir, hr1, hr2] at h
          exact h
        rcases hmem2 with hm | hm
        · obtain ⟨hc, hcw⟩ := (runCmd_snd_ranCmd hr1).mp hm
          subst hc; subst hcw
          exact absurd hf1 hfail
        · obtain ⟨hc, hcw⟩ := (runCmd_snd_ranCmd hr2).mp hm
          subst hc; subst hcw
          exact absurd hf2 hfail

end PyDeployer.Git

namespace PyDeployer.Git

/-- Helper: the git test stage never deletes a log file. -/
theorem test_no_deletedLog (config : Yaml) (env : Env) :
    ∀ e ∈ (test config env).2, e.isDeletedLog = false := by
  intro e he
  cases e <;> try rfl
  exfalso
  rcases hr : runCmd env
      (pySplit (getStrD ((config.getD "test" (Yaml.map [])).get? "command") "pytest -v"))
      (some (getStrD ((config.getD "repo" (Yaml.map [])).get? "target") "target_repo"))
    with ⟨r, ec⟩
  have hd := runCmd_no_deletedLog env
      (pySplit (getStrD ((config.getD "test" (Yaml.map [])).get? "command") "pytest -v"))
      (some (getStrD ((config.getD "repo" (Yaml.map [])).get? "target") "target_repo"))
  rw [hr] at hd
  cases r <;> (simp [test, hr] at he; exact no_del_of_mem hd he)

/-- Helper: the git test stage returns normally or exits 1. -/
theorem test_result (config : Yaml) (env : Env) :
    (test config env).1 = Res.ok () ∨ (test config env).1 = Res.exited 1 := by
  rcases hr : runCmd env
      (pySplit (getStrD ((config.getD "test" (Yaml.map [])).get? "command") "pytest -v"))
      (some (getStrD ((config.getD "repo" (Yaml.map [])).get? "target") "target_repo"))
    with ⟨r, ec⟩
  cases r with
  | keyError k => exact (runCmd_fst_not_keyError hr).elim
  | exited n =>
    obtain ⟨_, hn⟩ := runCmd_fst_exited hr
    subst hn
    right; simp [test, hr, resUnit]
  | ok v => left; simp [test, hr]

/-- Helper: when the command spawned by the git test stage fails, the stage
exits 1 and logs that command's stderr. -/
theorem test_cmd_failure (config : Yaml) (env : Env)
    (c : List String) (cw : Option String)
    (hmem : Event.ranCmd c cw ∈ (test config env).2)
    (hfail : (env.exec c cw).exitCode ≠ 0) :
    (test config env).1 = Res.exited 1
    ∧ Event.logError (env.exec c cw).stderr ∈ (test config env).2 := by
  rcases hr : runCmd env
      (pySplit (getStrD ((config.getD "test" (Yaml.map [])).get? "command") "pytest -v"))
      (some (getStrD ((config.getD "repo" (Yaml.map [])).get? "target") "target_repo"))
    with ⟨r, ec⟩
  have hmem2 : Event.ranCmd c cw ∈ ec := by
    have h := hmem
    cases r <;> (simp [test, hr] at h; exact h)
  obtain ⟨hc, hcw⟩ := (runCmd_snd_ranCmd hr).mp hmem2
  subst hc; subst hcw
  cases r with
  | keyError k => exact (runCmd_fst_not_keyError hr).elim
  | ok v => exact absurd (runCmd_fst_ok hr) hfail
  | exited n =>
    obtain ⟨hf, hn⟩ := runCmd_fst_exited hr
    subst hn
    have hl := runCmd_snd_logError hr hf
    exact ⟨by simp [test, hr, resUnit], by simp [test, hr, hl]⟩

/-- Helper: the deploy stage never deletes a log file. -/
theorem deploy_no_deletedLog (config : Yaml) (env : Env) :
    ∀ e ∈ (deploy config env).2, e.isDeletedLog = false := by
  intro e he
  cases e <;> try rfl
  exfalso
  rcases hr1 : runCmd env
      ["git", "pull", "origin",
       getStrD ((config.getD "deploy" (Yaml.map [])).get? "branch") "main", "--rebase"]
      (some (getStrD ((config.getD "repo" (Yaml.map [])).get? "target") "target_repo"))
    with ⟨r1, ec1⟩
  have hd1 := runCmd_no_deletedLog env
      ["git", "pull", "origin",
       getStrD ((config.getD "deploy" (Yaml.map [])).get? "branch") "main", "--rebase"]
      (some (getStrD ((config.getD "repo" (Yaml.map [])).get? "target") "target_repo"))
  rw [hr1] at hd1
  cases r1 with
  | keyError k => exact runCmd_fst_not_keyError hr1
  | exited n =>
    simp [deploy, hr1] at he
    exact no_del_of_mem hd1 he
  | ok v =>
    rcases hr2 : runCmd env
        ["git", "push", "origin",
         getStrD ((config.getD "deploy" (Yaml.map [])).get? "branch") "main"]
        (some (getStrD ((config.getD "repo" (Yaml.map [])).get? "target") "target_repo"))
      with ⟨r2, ec2⟩
    have hd2 := runCmd_no_deletedLog env
        ["git", "push", "origin",
         getStrD ((config.getD "deploy" (Yaml.map [])).get? "branch") "main"]
        (some (getStrD ((config.getD "repo" (Yaml.map [])).get? "target") "target_repo"))
    rw [hr2] at hd2
    cases r2 <;>
      (simp [deploy, hr1, hr2] at he
       rcases he with he | he
       · exact no_del_of_mem hd1 he
       · exact no_del_of_mem hd2 he)

/-- Helper: the deploy stage returns normally or exits 1. -/
theorem deploy_result (config : Yaml) (env : Env) :
    (deploy config env).1 = Res.ok () ∨ (deploy config env).1 = Res.exited 1 := by
  rcases hr1 : runCmd env
      ["git", "pull", "origin",
       getStrD ((config.getD "deploy" (Yaml.map [])).get? "branch") "main", "--rebase"]
      (some (getStrD ((config.getD "repo" (Yaml.map [])).get? "target") "target_repo"))
    with ⟨r1, ec1⟩
  cases r1 with
  | keyError k => exact (runCmd_fst_not_keyError hr1).elim
  | exited n =>
    obtain ⟨_, hn⟩ := runCmd_fst_exited hr1
    subst hn
    right; simp [deploy, hr1, resUnit]
  | ok v =>
    rcases hr2 : runCmd env
        ["git", "push", "origin",
         getStrD ((config.getD "deploy" (Yaml.map [])).get? "branch") "main"]
        (some (getStrD ((config.getD "repo" (Yaml.map [])).get? "target") "target_repo"))
      with ⟨r2, ec2⟩
    cases r2 with
    | keyError k => exact (runCmd_fst_not_keyError hr2).elim
    | exited n =>
      obtain ⟨_, hn⟩ := runCmd_fst_exited hr2
      subst hn
      right; simp [deploy, hr1, hr2, resUnit]
    | ok v2 => left; simp [deploy, hr1, hr2]

/-- Helper: when a command spawned by the deploy stage fails, the stage
exits 1 and logs that command's stderr. -/
theorem deploy_cmd_failure (config : Yaml) (env : Env)
    (c : List String) (cw : Option String)
    (hmem : Event.ranCmd c cw ∈ (deploy config env).2)
    (hfail : (env.exec c cw).exitCode ≠ 0) :
    (deploy config env).1 = Res.exited 1
    ∧ Event.logError (env.exec c cw).stderr ∈ (deploy config env).2 := by
  rcases hr1 : runCmd env
      ["git", "pull", "origin",
       getStrD ((config.getD "deploy" (Yaml.map [])).get? "branch") "main", "--rebase"]
      (some (getStrD ((config.getD "repo" (Yaml.map [])).get? "target") "target_repo"))
    with ⟨r1, ec1⟩
  cases r1 with
  | keyError k => exact (runCmd_fst_not_keyError hr1).elim
  | exited n =>
    obtain ⟨hf1, hn⟩ := runCmd_fst_exited hr1
    subst hn
    have hmem2 : Event.ranCmd c cw ∈ ec1 := by
      have h := hmem
      simp [deploy, hr1] at h
      exact h
    obtain ⟨hc, hcw⟩ := (runCmd_snd_ranCmd hr1).mp hmem2
    subst hc; subst hcw
    have hl := runCmd_snd_logError hr1 hf1
    exact ⟨by simp [deploy, hr1, resUnit], by simp [deploy, hr1, hl]⟩
  | ok v =>
    have hf1 := runCmd_fst_ok hr1
    rcases hr2 : runCmd env
        ["git", "push", "origin",
         getStrD ((config.getD "deploy" (Yaml.map [])).get? "branch") "main"]
        (some (getStrD ((config.getD "repo" (Yaml.map [])).get? "target") "target_repo"))
      with ⟨r2, ec2⟩
    cases r2 with
    | keyError k => exact (runCmd_fst_not_keyError hr2).elim
    | exited n =>
      obtain ⟨hf2, hn⟩ := runCmd_fst_exited hr2
      subst hn
      have hmem2 : Event.ranCmd c cw ∈ ec1 ∨ Event.ranCmd c cw ∈ ec2 := by
        have h := hmem
        simp [deploy, hr1, hr2] at h
        exact h
      rcases hmem2 with hm | hm
      · obtain ⟨hc, hcw⟩ := (runCmd_snd_ranCmd hr1).mp hm
        subst hc; subst hcw
        exact absurd hf1 hfail
      · obtain ⟨hc, hcw⟩ := (runCmd_snd_ranCmd hr2).mp hm
        subst hc; subst hcw
        have hl := runCmd_snd_logError hr2 hf2
        exact ⟨by simp [deploy, hr1, hr2, resUnit],
               by simp [deploy, hr1, hr2, hl]⟩
    | ok v2 =>
      have hf2 := runCmd_fst_ok hr2
      have hmem2 : Event.ranCmd c cw ∈ ec1 ∨ Event.ranCmd c cw ∈ ec2 := by
        have h := hmem
        simp [deploy, hr1, hr2] at h
        exact h
      rcases hmem2 with hm | hm
      · obtain ⟨hc, hcw⟩ := (runCmd_snd_ranCmd hr1).mp hm
        subst hc; subst hcw
        exact absurd hf1 hfail
      · obtain ⟨hc, hcw⟩ := (runCmd_snd_ranCmd hr2).mp hm
        subst hc; subst hcw
        exact absurd hf2 hfail

/-- Helper: the rollback stage never deletes a log file. -/
theorem rollback_no_deletedLog (config : Yaml) (env : Env) :
    ∀ e ∈ (rollback config env).2, e.isDeletedLog = false := by
  intro e he
  cases e <;> try rfl
  exfalso
  rcases hr1 : runCmd env ["git", "revert", "--no-edit", "HEAD"]
      (some (getStrD ((config.getD "repo" (Yaml.map [])).get? "target") "target_repo"))
    with ⟨r1, ec1⟩
  have hd1 := runCmd_no_deletedLog env ["git", "revert", "--no-edit", "HEAD"]
      (some (getStrD ((config.getD "repo" (Yaml.map [])).get? "target") "target_repo"))
  rw [hr1] at hd1
  cases r1 with
  | keyError k => exact runCmd_fst_not_keyError hr1
  | exited n =>
    simp [rollback, hr1] at he
    exact no_del_of_mem hd1 he
  | ok v =>
    rcases hr2 : runCmd env ["git", "push", "origin", "main"]
        (some (getStrD ((config.getD "repo" (Yaml.map [])).get? "target") "target_repo"))
      with ⟨r2, ec2⟩
    have hd2 := runCmd_no_deletedLog env ["git", "push", "origin", "main"]
        (some (getStrD ((config.getD "repo" (Yaml.map [])).get? "target") "target_repo"))
    rw [hr2] at hd2
    cases r2 <;>
      (simp [rollback, hr1, hr2] at he
       rcases he with he | he
       · exact no_del_of_mem hd1 he
       · exact no_del_of_mem hd2 he)

/-- Helper: the rollback stage returns normally or exits 1. -/
theorem rollback_result (config : Yaml) (env : Env) :
    (rollback config env).1 = Res.ok () ∨ (rollback config env).1 = Res.exited 1 := by
  rcases hr1 : runCmd env ["git", "revert", "--no-edit", "HEAD"]
      (some (getStrD ((config.getD "repo" (Yaml.map [])).get? "target") "target_repo"))
    with ⟨r1, ec1⟩
  cases r1 with
  | keyError k => exact (runCmd_fst_not_keyError hr1).elim
  | exited n =>
    obtain ⟨_, hn⟩ := runCmd_fst_exited hr1
    subst hn
    right; simp [rollback, hr1, resUnit]
  | ok v =>
    rcases hr2 : runCmd env ["git", "push", "origin", "main"]
        (some (getStrD ((config.getD "repo" (Yaml.map [])).get? "target") "target_repo"))
      with ⟨r2, ec2⟩
    cases r2 with
    | keyError k => exact (runCmd_fst_not_keyError hr2).elim
    | exited n =>
      obtain ⟨_, hn⟩ := runCmd_fst_exited hr2
      subst hn
      right; simp [rollback, hr1, hr2, resUnit]
    | ok v2 => left; simp [rollback, hr1, hr2]

/-- Helper: when a command spawned by the rollback stage fails, the stage
exits 1 and logs that command's stderr. -/
theorem rollback_cmd_failure (config : Yaml) (env : Env)
    (c : List String) (cw : Option String)
    (hmem : Event.ranCmd c cw ∈ (rollback config env).2)
    (hfail : (env.exec c cw).exitCode ≠ 0) :
    (rollback config env).1 = Res.exited 1
    ∧ Event.logError (env.exec c cw).stderr ∈ (rollback config env).2 := by
  rcases hr1 : runCmd env ["git", "revert", "--no-edit", "HEAD"]
      (some (getStrD ((config.getD "repo" (Yaml.map [])).get? "target") "target_repo"))
    with ⟨r1, ec1⟩
  cases r1 with
  | keyError k => exact (runCmd_fst_not_keyError hr1).elim
  | exited n =>
    obtain ⟨hf1, hn⟩ := runCmd_fst_exited hr1
    subst hn
    have hmem2 : Event.ranCmd c cw ∈ ec1 := by
      have h := hmem
      simp [rollback, hr1] at h
      exact h
    obtain ⟨hc, hcw⟩ := (runCmd_snd_ranCmd hr1).mp hmem2
    subst hc; subst hcw
    have hl := runCmd_snd_logError hr1 hf1
    exact ⟨by simp [rollback, hr1, resUnit], by simp [rollback, hr1, hl]⟩
  | ok v =>
    have hf1 := runCmd_fst_ok hr1
    rcases hr2 : runCmd env ["git", "push", "origin", "main"]
        (some (getStrD ((config.getD "repo" (Yaml.map [])).get? "target") "target_repo"))
      with ⟨r2, ec2⟩
    cases r2 with
    | keyError k => exact (runCmd_fst_not_keyError hr2).elim
    | exited n =>
      obtain ⟨hf2, hn⟩ := runCmd_fst_exited hr2
      subst hn
      have hmem2 : Event.ranCmd c cw ∈ ec1 ∨ Event.ranCmd c cw ∈ ec2 := by
        have h := hmem
        simp [rollback, hr1, hr2] at h
        exact h
      rcases hmem2 with hm | hm
      · obtain ⟨hc, hcw⟩ := (runCmd_snd_ranCmd hr1).mp hm
        subst hc; subst hcw
        exact absurd hf1 hfail
      · obtain ⟨hc, hcw⟩ := (runCmd_snd_ranCmd hr2).mp hm
        subst hc; subst hcw
        have hl := runCmd_snd_logError hr2 hf2
        exact ⟨by simp [rollback, hr1, hr2, resUnit],
               by simp [rollback, hr1, hr2, hl]⟩
    | ok v2 =>
      have hf2 := runCmd_fst_ok hr2
      have hmem2 : Event.ranCmd c cw ∈ ec1 ∨ Event.ranCmd c cw ∈ ec2 := by
        have h := hmem
        simp [rollback, hr1, hr2] at h
        exact h
      rcases hmem2 with hm | hm
      · obtain ⟨hc, hcw⟩ := (runCmd_snd_ranCmd hr1).mp hm
        subst hc; subst hcw
        exact absurd hf1 hfail
      · obtain ⟨hc, hcw⟩ := (runCmd_snd_ranCmd hr2).mp hm
        subst hc; subst hcw
        exact absurd hf2 hfail

end PyDeployer.Git

namespace PyDeployer

/-- Helper: iterated direct indexing never exits the process; it either
returns a value or raises a lookup error. -/
theorem pyIndexChain_ne_exited :
    ∀ (ks : List String) (y : Yaml) (n : Nat), pyIndexChain y ks ≠ Res.exited n := by
  intro ks
  induction ks with
  | nil =>
    intro y n
    simp [pyIndexChain]
  | cons k ks ih =>
    intro y n
    cases hy : y.get? k with
    | none => simp [pyIndexChain, pyIndex, hy]
    | some v =>
      simp [pyIndexChain, pyIndex, hy]
      exact ih v n

/-- Helper: the docker build stage never deletes a log file. -/
theorem docker_build_no_deletedLog (config : Yaml) (denv : Docker.Env) :
    ∀ e ∈ (Docker.build config denv).2, e.isDeletedLog = false := by
  intro e he
  cases e <;> try rfl
  exfalso
  rcases hch1 : pyIndexChain config ["stages", "build", "image_name"] with v | n | k
  · rcases hch2 : pyIndexChain config ["stages", "build", "tag"] with v2 | n2 | k2
    · by_cases hx : (denv.exec
          ["docker", "build", "-t", pyStr v ++ ":" ++ pyStr v2, "."] none).exitCode = 0 <;>
        simp [Docker.build, hch1, hch2, hx] at he
    · exact pyIndexChain_ne_exited _ _ _ hch2
    · simp [Docker.build, hch1, hch2] at he
  · exact pyIndexChain_ne_exited _ _ _ hch1
  · simp [Docker.build, hch1] at he

/-- Helper: the docker test stage never deletes a log file. -/
theorem docker_test_no_deletedLog (config : Yaml) (denv : Docker.Env) :
    ∀ e ∈ (Docker.test config denv).2, e.isDeletedLog = false := by
  intro e he
  cases e <;> try rfl
  exfalso
  rcases hch1 : pyIndexChain config ["stages", "test", "command"] with v | n | k
  · by_cases hx : (denv.exec
        ["docker", "run", "--rm", "pydeployer:latest", "bash", "-c", pyStr v]
        none).exitCode = 0 <;>
      simp [Docker.test, hch1, hx] at he
  · exact pyIndexChain_ne_exited _ _ _ hch1
  · simp [Docker.test, hch1] at he

/-- Helper: when the docker build command fails, the stage exits 1 and logs
the fixed message `Build failed` (the command output is not captured). -/
theorem docker_build_cmd_failure (config : Yaml) (denv : Docker.Env)
    (c : List String) (cw : Option String)
    (hmem : Event.ranCmd c cw ∈ (Docker.build config denv).2)
    (hfail : (denv.exec c cw).exitCode ≠ 0) :
    (Docker.build config denv).1 = Res.exited 1
    ∧ Event.logError "Build failed" ∈ (Docker.build config denv).2 := by
  rcases hch1 : pyIndexChain config ["stages", "build", "image_name"] with v | n | k
  · rcases hch2 : pyIndexChain config ["stages", "build", "tag"] with v2 | n2 | k2
    · by_cases hx : (denv.exec
          ["docker", "build", "-t", pyStr v ++ ":" ++ pyStr v2, "."] none).exitCode = 0
      · exfalso
        have h := hmem
        simp [Docker.build, hch1, hch2, hx] at h
        obtain ⟨hc, hcw⟩ := h
        subst hc; subst hcw
        exact hfail hx
      · refine ⟨by simp [Docker.build, hch1, hch2, hx],
          by simp [Docker.build, hch1, hch2, hx]⟩
    · exact (pyIndexChain_ne_exited _ _ _ hch2).elim
    · exfalso
      simp [Docker.build, hch1, hch2] at hmem
  · exact (pyIndexChain_ne_exited _ _ _ hch1).elim
  · exfalso
    simp [Docker.build, hch1] at hmem

/-- Helper: when the docker test command fails, the stage exits 1 and logs
the fixed message `Tests failed.` (the command output is not captured). -/
theorem docker_test_cmd_failure (config : Yaml) (denv : Docker.Env)
    (c : List String) (cw : Option String)
    (hmem : Event.ranCmd c cw ∈ (Docker.test config denv).2)
    (hfail : (denv.exec c cw).exitCode ≠ 0) :
    (Docker.test config denv).1 = Res.exited 1
    ∧ Event.logError "Tests failed." ∈ (Docker.test config denv).2 := by
  rcases hch1 : pyIndexChain config ["stages", "test", "command"] with v | n | k
  · by_cases hx : (denv.exec
        ["docker", "run", "--rm", "pydeployer:latest", "bash", "-c", pyStr v]
        none).exitCode = 0
    · exfalso
      have h := hmem
      simp [Docker.test, hch1, hx] at h
      obtain ⟨hc, hcw⟩ := h
      subst hc; subst hcw
      exact hfail hx
    · refine ⟨by simp [Docker.test, hch1, hx], by simp [Docker.test, hch1, hx]⟩
  · exact (pyIndexChain_ne_exited _ _ _ hch1).elim
  · exfalso
    simp [Docker.test, hch1] at hmem

/-- Helper: unfolding the docker `run_stage` at the build stage when the
configuration file exists. -/
theorem docker_run_stage_eq_build (denv : Docker.Env)
    (hpe : denv.pipelineExists = true) :
    Docker.run_stage "build" denv =
      ((Docker.build denv.pipeline denv).1, (Docker.build denv.pipeline denv).2) := by
  simp [Docker.run_stage, Docker.load_config, hpe]

/-- Helper: unfolding the docker `run_stage` at the test stage when the
configuration file exists. -/
theorem docker_run_stage_eq_test (denv : Docker.Env)
    (hpe : denv.pipelineExists = true) :
    Docker.run_stage "test" denv =
      ((Docker.test denv.pipeline denv).1, (Docker.test denv.pipeline denv).2) := by
  have h1 : ¬ (("test" : String) = "build") := by decide
  simp [Docker.run_stage, Docker.load_config, hpe, h1]

end PyDeployer

namespace PyDeployer

/-- Counterexample for C5 as stated: in the docker-based variant a failing
build command does exit 1, but the stderr captured from the command (here
`boom`) is never written to the log — only the fixed message `Build failed`
is logged, because the docker variant does not capture output streams. -/
theorem docker_failure_stderr_not_logged_cex :
    (Docker.run_stage "build" denvFail).1 = Res.exited 1
    ∧ Event.ranCmd ["docker", "build", "-t", "img:v1", "."] none
        ∈ (Docker.run_stage "build" denvFail).2
    ∧ Event.logError "boom" ∉ (Docker.run_stage "build" denvFail).2
    ∧ Event.logError "Build failed" ∈ (Docker.run_stage "build" denvFail).2 := by
  decide

/-- C5 (amended): whenever a build/test/deploy/rollback stage spawns an
external command that exits non-zero, the run terminates with exit code 1;
the git-based variant logs the stderr captured from that command, while the
docker-based variant logs a fixed failure message instead (its commands run
uncaptured).  The git statement carries the `wfConfig` side condition on
the loaded configuration. -/
theorem stage_cmd_failure_amended :
    (∀ (name : String) (env : Git.Env) (c : List String) (cw : Option String),
      name ∈ (["build", "test", "deploy", "rollback"] : List String) →
      Git.wfConfig (Git.load_config env).1 = true →
      Event.ranCmd c cw ∈ (Git.run_stage name env).2 →
      (env.exec c cw).exitCode ≠ 0 →
      (Git.run_stage name env).1 = Res.exited 1
      ∧ Event.logError (env.exec c cw).stderr ∈ (Git.run_stage name env).2)
    ∧ (∀ (name : String) (denv : Docker.Env) (c : List String) (cw : Option String),
      name ∈ (["build", "test"] : List String) →
      Event.ranCmd c cw ∈ (Docker.run_stage name denv).2 →
      (denv.exec c cw).exitCode ≠ 0 →
      (Docker.run_stage name denv).1 = Res.exited 1
      ∧ Event.logError (if name = "build" then "Build failed" else "Tests failed.")
          ∈ (Docker.run_stage name denv).2) := by
  constructor
  · intro name env c cw hname hw hmem hfail
    simp only [List.mem_cons, List.not_mem_nil, or_false] at hname
    rcases hname with rfl | rfl | rfl | rfl
    · rw [Git.run_stage_eq_build] at hmem
      rcases List.mem_append.mp hmem with hp | hs
      · exact absurd hp (Git.pre_no_ranCmd env c cw)
      · obtain ⟨h1, h2⟩ := Git.build_cmd_failure (Git.load_config env).1 env c cw hs hfail
        constructor
        · rw [Git.run_stage_eq_build]; exact h1
        · rw [Git.run_stage_eq_build]; exact List.mem_append_right _ h2
    · rw [Git.run_stage_eq_test] at hmem
      rcases List.mem_append.mp hmem with hp | hs
      · exact absurd hp (Git.pre_no_ranCmd env c cw)
      · obtain ⟨h1, h2⟩ := Git.test_cmd_failure (Git.load_config env).1 env c cw hs hfail
        constructor
        · rw [Git.run_stage_eq_test]; exact h1
        · rw [Git.run_stage_eq_test]; exact List.mem_append_right _ h2
    · rw [Git.run_stage_eq_deploy] at hmem
      rcases List.mem_append.mp hmem with hp | hs
      · exact absurd hp (Git.pre_no_ranCmd env c cw)
      · obtain ⟨h1, h2⟩ := Git.deploy_cmd_failure (Git.load_config env).1 env c cw hs hfail
        constructor
        · rw [Git.run_stage_eq_deploy]; exact h1
        · rw [Git.run_stage_eq_deploy]; exact List.mem_append_right _ h2
    · rw [Git.run_stage_eq_rollback] at hmem
      rcases List.mem_append.mp hmem with hp | hs
      · exact absurd hp (Git.pre_no_ranCmd env c cw)
      · obtain ⟨h1, h2⟩ := Git.rollback_cmd_failure (Git.load_config env).1 env c cw hs hfail
        constructor
        · rw [Git.run_stage_eq_rollback]; exact h1
        · rw [Git.run_stage_eq_rollback]; exact List.mem_append_right _ h2
  · intro name denv c cw hname hmem hfail
    simp only [List.mem_cons, List.not_mem_nil, or_false] at hname
    rcases hname with rfl | rfl
    · by_cases hpe : denv.pipelineExists = true
      · rw [docker_run_stage_eq_build denv hpe] at hmem
        obtain ⟨h1, h2⟩ := docker_build_cmd_failure denv.pipeline denv c cw hmem hfail
        rw [docker_run_stage_eq_build denv hpe]
        exact ⟨h1, by simpa using h2⟩
      · exfalso
        simp [Docker.run_stage, Docker.load_config, hpe] at hmem
    · by_cases hpe : denv.pipelineExists = true
      · rw [docker_run_stage_eq_test denv hpe] at hmem
        obtain ⟨h1, h2⟩ := docker_test_cmd_failure denv.pipeline denv c cw hmem hfail
        rw [docker_run_stage_eq_test denv hpe]
        have hne : ¬ (("test" : String) = "build") := by decide
        exact ⟨h1, by simp [hne]; exact h2⟩
      · exfalso
        simp [Docker.run_stage, Docker.load_config, hpe] at hmem

/-- Witness for C5 (amended): with every command failing with stderr `boom`,
the concrete deploy run of the git variant exits 1 and logs `boom`, and the
concrete docker build run exits 1 and logs `Build failed`. -/
theorem stage_cmd_failure_amended_witness :
    (Git.run_stage "deploy" envGitFail).1 = Res.exited 1
    ∧ Event.logError "boom" ∈ (Git.run_stage "deploy" envGitFail).2
    ∧ (Docker.run_stage "build" denvFail).1 = Res.exited 1 := by
  have h := stage_cmd_failure_amended
  have hg := h.1 "deploy" envGitFail ["git", "pull", "origin", "main", "--rebase"]
    (some "trg") (by decide) (by decide) (by decide) (by decide)
  have hd := h.2 "build" denvFail ["docker", "build", "-t", "img:v1", "."]
    none (by decide) (by decide) (by decide)
  exact ⟨hg.1, hg.2, hd.1⟩

/-- Counterexample for C8 as stated: in the docker-based variant a run
invokes its stage handler (a process is spawned) but the control flow
contains no log-pruning step at all — the trace has no deletion event. -/
theorem docker_no_prune_cex :
    Event.ranCmd ["docker", "build", "-t", "img:v1", "."] none
      ∈ (Docker.run_stage "build" denvOk).2
    ∧ (Docker.run_stage "build" denvOk).2.countP Event.isDeletedLog = 0 := by
  decide

/-- C8 (amended): in the git-based variant every run goes
load-configuration, prune-old-logs, stage-handler in that order — every log
deletion precedes every spawned command in the trace — and the run ends
with status 0 or 1; the docker-based variant omits the pruning step
entirely (its traces contain no deletion event). -/
theorem run_stage_order_amended :
    (∀ (name : String) (env : Git.Env),
      Git.wfConfig (Git.load_config env).1 = true →
      ((Git.run_stage name env).1 = Res.ok ()
        ∨ (Git.run_stage name env).1 = Res.exited 1)
      ∧ (∀ i j (hi : i < (Git.run_stage name env).2.length)
           (hj : j < (Git.run_stage name env).2.length),
          ((Git.run_stage name env).2.get ⟨i, hi⟩).isDeletedLog = true →
          ((Git.run_stage name env).2.get ⟨j, hj⟩).isRanCmd = true → i < j))
    ∧ (∀ (name : String) (denv : Docker.Env),
        ∀ e ∈ (Docker.run_stage name denv).2, e.isDeletedLog = false) := by
  constructor
  · intro name env hw
    by_cases hc : name = "clone"
    · subst hc
      rw [Git.run_stage_eq_clone]
      exact ⟨Git.clone_result (Git.load_config env).1 env,
        Git.mem_split_lt (Git.clone_no_deletedLog _ _) (Git.pre_no_ran env)⟩
    · by_cases hb : name = "build"
      · subst hb
        rw [Git.run_stage_eq_build]
        exact ⟨Git.build_result (Git.load_config env).1 env,
          Git.mem_split_lt (Git.build_no_deletedLog _ _) (Git.pre_no_ran env)⟩
      · by_cases ht : name = "test"
        · subst ht
          rw [Git.run_stage_eq_test]
          exact ⟨Git.test_result (Git.load_config env).1 env,
            Git.mem_split_lt (Git.test_no_deletedLog _ _) (Git.pre_no_ran env)⟩
        · by_cases hd : name = "deploy"
          · subst hd
            rw [Git.run_stage_eq_deploy]
            exact ⟨Git.deploy_result (Git.load_config env).1 env,
              Git.mem_split_lt (Git.deploy_no_deletedLog _ _) (Git.pre_no_ran env)⟩
          · by_cases hrb : name = "rollback"
            · subst hrb
              rw [Git.run_stage_eq_rollback]
              exact ⟨Git.rollback_result (Git.load_config env).1 env,
                Git.mem_split_lt (Git.rollback_no_deletedLog _ _) (Git.pre_no_ran env)⟩
            · rw [Git.run_stage_eq_unknown name env hc hb ht hd hrb]
              refine ⟨Or.inl rfl, Git.mem_split_lt ?_ (Git.pre_no_ran env)⟩
              intro e he
              simp only [List.mem_singleton] at he
              subst he
              rfl
  · intro name denv e he
    by_cases hpe : denv.pipelineExists = true
    · by_cases hb : name = "build"
      · subst hb
        rw [docker_run_stage_eq_build denv hpe] at he
        exact docker_build_no_deletedLog denv.pipeline denv e he
      · by_cases ht : name = "test"
        · subst ht
          rw [docker_run_stage_eq_test denv hpe] at he
          exact docker_test_no_deletedLog denv.pipeline denv e he
        · simp [Docker.run_stage, Docker.load_config, hpe, hb, ht] at he
          simp [he, Event.isDeletedLog]
    · simp [Docker.run_stage, Docker.load_config, hpe] at he
      simp [he, Event.isDeletedLog]

/-- Witness for C8 (amended): at a concrete environment the git clone run
ends with status 0 or 1, and the concrete docker build trace deletes
nothing. -/
theorem run_stage_order_amended_witness :
    ((Git.run_stage "clone" envGitOk).1 = Res.ok ()
      ∨ (Git.run_stage "clone" envGitOk).1 = Res.exited 1)
    ∧ Event.isDeletedLog
        (Event.ranCmd ["docker", "build", "-t", "img:v1", "."] none) = false := by
  have h := run_stage_order_amended
  exact ⟨(h.1 "clone" envGitOk (by decide)).1,
    h.2 "build" denvOk (Event.ranCmd ["docker", "build", "-t", "img:v1", "."] none)
      (by decide)⟩

/-- C10: the docker-based build and test stages read
`stages.build.image_name`, `stages.build.tag`, and `stages.test.command` by
direct indexing, so a configuration lacking any of those keys makes the
stage raise an uncaught lookup error — not a handled failure: the result is
not exit code 1 and no message is logged. -/
theorem docker_missing_keys_crash (config : Yaml) (denv : Docker.Env) :
    ((∃ k, pyIndexChain config ["stages", "build", "image_name"] = Res.keyError k)
      ∨ (∃ k, pyIndexChain config ["stages", "build", "tag"] = Res.keyError k) →
      ((∃ k, (Docker.build config denv).1 = Res.keyError k)
       ∧ (Docker.build config denv).1 ≠ Res.exited 1
       ∧ ∀ s, Event.logError s ∉ (Docker.build config denv).2))
    ∧ ((∃ k, pyIndexChain config ["stages", "test", "command"] = Res.keyError k) →
      ((∃ k, (Docker.test config denv).1 = Res.keyError k)
       ∧ (Docker.test config denv).1 ≠ Res.exited 1
       ∧ ∀ s, Event.logError s ∉ (Docker.test config denv).2)) := by
  constructor
  · intro hk
    rcases hch1 : pyIndexChain config ["stages", "build", "image_name"] with v | n | k
    · rcases hch2 : pyIndexChain config ["stages", "build", "tag"] with v2 | n2 | k2
      · exfalso
        rcases hk with ⟨k, hk⟩ | ⟨k, hk⟩
        · rw [hch1] at hk; cases hk
        · rw [hch2] at hk; cases hk
      · exact (pyIndexChain_ne_exited _ _ _ hch2).elim
      · refine ⟨⟨k2, by simp [Docker.build, hch1, hch2]⟩,
          by simp [Docker.build, hch1, hch2], ?_⟩
        intro s hs
        simp [Docker.build, hch1, hch2] at hs
    · exact (pyIndexChain_ne_exited _ _ _ hch1).elim
    · refine ⟨⟨k, by simp [Docker.build, hch1]⟩, by simp [Docker.build, hch1], ?_⟩
      intro s hs
      simp [Docker.build, hch1] at hs
  · intro hk
    rcases hch1 : pyIndexChain config ["stages", "test", "command"] with v | n | k
    · exfalso
      rcases hk with ⟨k, hk⟩
      rw [hch1] at hk; cases hk
    · exact (pyIndexChain_ne_exited _ _ _ hch1).elim
    · refine ⟨⟨k, by simp [Docker.test, hch1]⟩, by simp [Docker.test, hch1], ?_⟩
      intro s hs
      simp [Docker.test, hch1] at hs

/-- Witness for C10: with the empty configuration, both docker stages crash
with a lookup error (on `stages`) rather than exiting 1. -/
theorem docker_missing_keys_crash_witness :
    (Docker.build (Yaml.map []) denvEmptyCfg).1 = Res.keyError "stages"
    ∧ (Docker.build (Yaml.map []) denvEmptyCfg).1 ≠ Res.exited 1
    ∧ (Docker.test (Yaml.map []) denvEmptyCfg).1 ≠ Res.exited 1 := by
  have h := docker_missing_keys_crash (Yaml.map []) denvEmptyCfg
  exact ⟨rfl, (h.1 (Or.inl ⟨"stages", rfl⟩)).2.1, (h.2 ⟨"stages", rfl⟩).2.1⟩

end PyDeployer
